import Mathlib

/-!
Rainbow Node SDK: the Bubbles service (`lib/services/Bubbles.js`).

A shallow embedding of the room ("bubble") service.  The service object is a
record holding the local room array `_bubbles`; its collaborators (`_rest`,
`_xmpp`, `_eventEmitter`) are external.  The REST collaborator is a parameter:
a record of response functions, each of which may depend on every call issued
before it.  Every call made on a collaborator is appended to a log kept next
to the room array, so that "no remote call is issued" is a statement about
that log.

A JavaScript promise is embedded by its final outcome: resolved with a value,
rejected with an error, or never settled.
-/

namespace Rainbow

/-! ## Data model -/

/-- One entry of `bubble.users`. -/
structure User where
  userId : String
  privilege : String
  status : String
deriving DecidableEq, Repr

/-- A bubble as returned by the REST collaborator. -/
structure Bubble where
  id : String
  jid : String
  name : String
  description : String
  users : List User
  customData : List (String × String)
deriving DecidableEq, Repr

/-- A contact; the service only reads `contact.id`. -/
structure Contact where
  id : String
deriving DecidableEq, Repr

/-- Modelled from the spec: the error constants of `../common/Error`, which is
not among the sources.  `OK` is the success value `deleteBubble` resolves with;
`BAD_REQUEST` and `FORBIDDEN` are the two constants the service rejects with on
its own; `REMOTE_FAILURE` carries the opaque error a collaborator rejected
with, passed through unmodified. -/
inductive ErrorCase where
  | OK
  | BAD_REQUEST
  | FORBIDDEN
  | REMOTE_FAILURE (err : String)
deriving DecidableEq, Repr

/-- The final outcome of a JavaScript promise. -/
inductive Promise (α : Type) where
  | resolved (value : α)
  | rejected (err : ErrorCase)
  | pending
deriving DecidableEq, Repr

/-- A call made on a collaborator: `_rest.*`, `_xmpp.*` or `_eventEmitter.once`. -/
inductive Effect where
  | restCreateBubble (name description : String) (withHistory : Bool)
  | restDeleteBubble (bubbleId : String)
  | restGetBubble (bubbleId : String)
  | restLeaveBubble (bubbleId : String)
  | restRemoveInvitationOfContactToBubble (contactId bubbleId : String)
  | restUnsubscribeContactFromBubble (contactId bubbleId : String)
  | xmppSendInitialBubblePresence (jid : String)
  | xmppSendUnavailableBubblePresence (jid : String)
  | eventEmitterOnce (event : String)
  | restInviteContactToBubble (contactId bubbleId : String) (isModerator withInvitation : Bool)
      (reason : Option String)
  | restAcceptInvitationToJoinBubble (bubbleId : String)
  | restDeclineInvitationToJoinBubble (bubbleId : String)
  | restSetBubbleCustomData (bubbleId : String) (customData : List (String × String))
  | eventEmitterEmit (event : String) (bubble : Bubble)
deriving DecidableEq, Repr

/-- The REST collaborator `_rest`.  Each method answers with the value its
promise resolves with or the error it rejects with; the first argument is the
log of all collaborator calls issued before this one. -/
structure Rest where
  userId : String
  createBubble : List Effect → String → String → Bool → Except String Bubble
  deleteBubble : List Effect → String → Except String Unit
  getBubble : List Effect → String → Except String Bubble
  leaveBubble : List Effect → String → Except String String
  removeInvitationOfContactToBubble : List Effect → String → String → Except String Bubble
  unsubscribeContactFromBubble : List Effect → String → String → Except String Bubble
  inviteContactToBubble :
    List Effect → String → String → Bool → Bool → Option String → Except String Unit
  acceptInvitationToJoinBubble : List Effect → String → Except String String
  declineInvitationToJoinBubble : List Effect → String → Except String String
  setBubbleCustomData :
    List Effect → String → List (String × String) → Except String (List (String × String))

/-- The service object: `_bubbles`, the log of collaborator calls, and the
`once` listeners waiting on `rainbow_onbubblepresencechanged` (each is the
closure of `createBubble`, determined by the bubble it captured). -/
structure Bubbles where
  bubbles : List Bubble
  calls : List Effect
  presenceListeners : List Bubble
deriving DecidableEq, Repr

/-! ## JavaScript array primitives -/

/-- JavaScript truthiness of a string: only the empty string is falsy. -/
def truthy (s : String) : Bool := s != ""

/-- JavaScript truthiness of a possibly undefined string argument. -/
def truthyArg : Option String → Bool
  | none => false
  | some s => truthy s

/-- The function `Array.prototype.findIndex`: index of the first element
satisfying `p`, or `-1`. -/
def findIndex {α : Type} (p : α → Bool) : List α → Int
  | [] => -1
  | x :: xs =>
    if p x then 0
    else
      let i := findIndex p xs
      if i < 0 then -1 else i + 1

/-- The assignment `arr[i] = v`.  For a negative `i` (the `-1` of a failed
`findIndex`) JavaScript sets a non-index property and the elements are
unchanged. -/
def assignIndex {α : Type} (arr : List α) (i : Int) (v : α) : List α :=
  if i < 0 then arr else arr.set i.toNat v

/-- The function `Array.prototype.splice(start, deleteCount)`: a negative
`start` counts from the end of the array. -/
def splice {α : Type} (arr : List α) (start : Int) (deleteCount : Nat) : List α :=
  let len : Int := arr.length
  let actualStart : Nat :=
    if start < 0 then (max (len + start) 0).toNat else (min start len).toNat
  arr.take actualStart ++ arr.drop (actualStart + deleteCount)

/-- Append a collaborator call to the log. -/
def Bubbles.record (s : Bubbles) (e : Effect) : Bubbles :=
  { s with calls := s.calls ++ [e] }

/-- The statement pair `foundIndex = _bubbles.findIndex(b => b.id === bubbleUpdated.id);
_bubbles[foundIndex] = bubbleUpdated`. -/
def Bubbles.store (s : Bubbles) (bubbleUpdated : Bubble) : Bubbles :=
  let foundIndex := findIndex (fun bubbleItem => bubbleItem.id == bubbleUpdated.id) s.bubbles
  { s with bubbles := assignIndex s.bubbles foundIndex bubbleUpdated }

/-! ## Operations -/

/-- The method `isBubbleClosed(bubble)`: throws on a missing bubble, otherwise
looks for a user whose status is `invited` or `accepted`. -/
def isBubbleClosed (bubble : Option Bubble) : Except ErrorCase Bool :=
  match bubble with
  | none => .error .BAD_REQUEST
  | some bubble =>
    match bubble.users.find? (fun user => user.status == "invited" || user.status == "accepted") with
    | some _ => .ok false
    | none => .ok true

/-- The method `createBubble(name, description, withHistory)`.  A missing
`withHistory` defaults to `false`.  In both validation branches the executor
calls `reject(BAD_REQUEST)` and then throws; the throw happens inside the
promise executor after the promise is already rejected, so the outcome is the
rejection.  On backend success the `once` listener is registered first, then
the initial presence is sent, and the promise stays unsettled. -/
def createBubble (rest : Rest) (s : Bubbles) (name description : Option String)
    (withHistory : Option Bool) : Bubbles × Promise Bubble :=
  let withHistory := withHistory.getD false
  if !truthyArg name then (s, .rejected .BAD_REQUEST)
  else if !truthyArg description then (s, .rejected .BAD_REQUEST)
  else
    let name := name.getD ""
    let description := description.getD ""
    let s1 := s.record (.restCreateBubble name description withHistory)
    match rest.createBubble s.calls name description withHistory with
    | .ok bubble =>
      let s2 := s1.record (.eventEmitterOnce "rainbow_onbubblepresencechanged")
      let s3 := { s2 with presenceListeners := s2.presenceListeners ++ [bubble] }
      (s3.record (.xmppSendInitialBubblePresence bubble.jid), .pending)
    | .error err => (s1, .rejected (.REMOTE_FAILURE err))

/-- The listener `createBubble` registers with `once`: it pushes the captured
bubble onto `_bubbles` and resolves the promise of `createBubble` with it. -/
def createBubbleListener (bubble : Bubble) (s : Bubbles) : Bubbles × Promise Bubble :=
  ({ s with bubbles := s.bubbles ++ [bubble] }, .resolved bubble)

/-- The event `rainbow_onbubblepresencechanged` fires: every `once` listener is
removed and run, in registration order; the result lists the outcome each
listener gave to its promise. -/
def emitBubblePresenceChanged (s : Bubbles) : Bubbles × List (Promise Bubble) :=
  s.presenceListeners.foldl
    (fun acc bubble =>
      let r := createBubbleListener bubble acc.1
      (r.1, acc.2 ++ [r.2]))
    ({ s with presenceListeners := [] }, [])

/-- The loop of `removeContactFromBubble` that computes `contactStatus`: it
starts from the empty string and every user whose `userId` equals the
contact id overwrites it. -/
def contactStatus (users : List User) (contactId : String) : String :=
  users.foldl (fun status user => if user.userId == contactId then user.status else status) ""

/-- The method `removeContactFromBubble(contact, bubble)`. -/
def removeContactFromBubble (rest : Rest) (s : Bubbles) (contact : Option Contact)
    (bubble : Option Bubble) : Bubbles × Promise Bubble :=
  match contact, bubble with
  | none, _ => (s, .rejected .BAD_REQUEST)
  | some _, none => (s, .rejected .BAD_REQUEST)
  | some contact, some bubble =>
    let status := contactStatus bubble.users contact.id
    if status == "invited" then
      let s1 := s.record (.restRemoveInvitationOfContactToBubble contact.id bubble.id)
      match rest.removeInvitationOfContactToBubble s.calls contact.id bubble.id with
      | .ok bubbleUpdated => (s1.store bubbleUpdated, .resolved bubbleUpdated)
      | .error err => (s1, .rejected (.REMOTE_FAILURE err))
    else if status == "accepted" then
      let s1 := s.record (.restUnsubscribeContactFromBubble contact.id bubble.id)
      match rest.unsubscribeContactFromBubble s.calls contact.id bubble.id with
      | .ok bubbleUpdated => (s1.store bubbleUpdated, .resolved bubbleUpdated)
      | .error err => (s1, .rejected (.REMOTE_FAILURE err))
    else (s, .resolved bubble)

/-- The local function `unsubscribeParticipants` of `closeBubble`: shifts the
first id off the queue; a falsy id (also the `undefined` of an empty queue)
resolves at once, otherwise the participant is removed and the rest of the
queue is processed only after that removal resolved. -/
def unsubscribeParticipants (rest : Rest) (bubble : Bubble) :
    List String → Bubbles → Bubbles × Promise Unit
  | [], s => (s, .resolved ())
  | participantID :: participantsIDList, s =>
    if truthy participantID then
      match removeContactFromBubble rest s (some ⟨participantID⟩) (some bubble) with
      | (s1, .resolved _) => unsubscribeParticipants rest bubble participantsIDList s1
      | (s1, .rejected err) => (s1, .rejected err)
      | (s1, .pending) => (s1, .pending)
    else (s, .resolved ())

/-- The queue `closeBubble` builds: every user id other than the connected
user's, in the order of `bubble.users`, then the connected user's id. -/
def closeQueue (rest : Rest) (bubble : Bubble) : List String :=
  bubble.users.foldl
    (fun queue user => if user.userId != rest.userId then queue ++ [user.userId] else queue) []
    ++ [rest.userId]

/-- The method `closeBubble(bubble)`.  The re-fetch `_rest.getBubble` has no
rejection handler of its own and its promise is not returned to the outer
chain, so when it rejects the promise of `closeBubble` never settles. -/
def closeBubble (rest : Rest) (s : Bubbles) (bubble : Option Bubble) : Bubbles × Promise Bubble :=
  match bubble with
  | none => (s, .rejected .BAD_REQUEST)
  | some bubble =>
    match isBubbleClosed (some bubble) with
    | .error err => (s, .rejected err)
    | .ok true => (s, .resolved bubble)
    | .ok false =>
      match unsubscribeParticipants rest bubble (closeQueue rest bubble) s with
      | (s1, .resolved _) =>
        let s2 := s1.record (.restGetBubble bubble.id)
        match rest.getBubble s1.calls bubble.id with
        | .ok bubbleUpdated => (s2.store bubbleUpdated, .resolved bubbleUpdated)
        | .error _ => (s2, .pending)
      | (s1, .rejected err) => (s1, .rejected err)
      | (s1, .pending) => (s1, .pending)

/-- The method `deleteBubble(bubble)`: close, then remote delete of the closed
snapshot's id, then `_bubbles.splice(_bubbles.findIndex(el => el.id === updatedBubble.id), 1)`. -/
def deleteBubble (rest : Rest) (s : Bubbles) (bubble : Option Bubble) : Bubbles × Promise ErrorCase :=
  match bubble with
  | none => (s, .rejected .BAD_REQUEST)
  | some bubble =>
    match closeBubble rest s (some bubble) with
    | (s1, .resolved updatedBubble) =>
      let s2 := s1.record (.restDeleteBubble updatedBubble.id)
      match rest.deleteBubble s1.calls updatedBubble.id with
      | .ok _ =>
        let index := findIndex (fun el => el.id == updatedBubble.id) s2.bubbles
        ({ s2 with bubbles := splice s2.bubbles index 1 }, .resolved .OK)
      | .error err => (s2, .rejected (.REMOTE_FAILURE err))
    | (s1, .rejected err) => (s1, .rejected err)
    | (s1, .pending) => (s1, .pending)

/-- The method `leaveBubble(bubble)`.  In the branch without another moderator
the executor calls `reject(FORBIDDEN)` before it throws, so the promise is
rejected with `FORBIDDEN`. -/
def leaveBubble (rest : Rest) (s : Bubbles) (bubble : Option Bubble) : Bubbles × Promise String :=
  let otherModerator : Option User :=
    match bubble with
    | some bubble =>
      bubble.users.find? (fun user =>
        user.privilege == "moderator" && user.status == "accepted" && user.userId != rest.userId)
    | none => none
  match bubble with
  | none => (s, .rejected .BAD_REQUEST)
  | some bubble =>
    match otherModerator with
    | none => (s, .rejected .FORBIDDEN)
    | some _ =>
      let s1 := s.record (.restLeaveBubble bubble.id)
      match rest.leaveBubble s.calls bubble.id with
      | .ok json => (s1.record (.xmppSendUnavailableBubblePresence bubble.jid), .resolved json)
      | .error err => (s1, .rejected (.REMOTE_FAILURE err))

/-- What the caller of a method observes: either the method threw before
returning, or it returned a promise. -/
inductive Call (α : Type) where
  | threw (err : ErrorCase)
  | returned (promise : Promise α)
deriving DecidableEq, Repr

/-- The exception the caller receives synchronously, if any. -/
def Call.raised {α : Type} : Call α → Option ErrorCase
  | .threw err => some err
  | .returned _ => none

/-- The promise the caller receives, if any. -/
def Call.result {α : Type} : Call α → Option (Promise α)
  | .threw _ => none
  | .returned promise => some promise

/-- One run of a promise executor: the settlement it made, and the exception
it threw afterwards, if any. -/
structure Executor (α : Type) where
  settled : Promise α
  thrown : Option ErrorCase
deriving DecidableEq, Repr

/-- The expression `new Promise(executor)`.  The constructor catches whatever
the executor throws: it rejects the promise with it when the promise is not
settled yet and drops it otherwise.  The caller always gets the promise. -/
def newPromise {α : Type} (run : Executor α) : Call α :=
  match run.settled, run.thrown with
  | .pending, some err => .returned (.rejected err)
  | settled, _ => .returned settled

/-- The method `inviteContactToBubble(contact, bubble, isModerator,
withInvitation, reason)`.  The re-fetch `_rest.getBubble` has no rejection
handler and is not returned to the outer chain: when it rejects, the promise of
the method never settles. -/
def inviteContactToBubble (rest : Rest) (s : Bubbles) (contact : Option Contact)
    (bubble : Option Bubble) (isModerator withInvitation : Bool) (reason : Option String) :
    Bubbles × Promise Bubble :=
  match contact, bubble with
  | none, _ => (s, .rejected .BAD_REQUEST)
  | some _, none => (s, .rejected .BAD_REQUEST)
  | some contact, some bubble =>
    let s1 := s.record
      (.restInviteContactToBubble contact.id bubble.id isModerator withInvitation reason)
    match rest.inviteContactToBubble s.calls contact.id bubble.id isModerator withInvitation reason with
    | .ok _ =>
      let s2 := s1.record (.restGetBubble bubble.id)
      match rest.getBubble s1.calls bubble.id with
      | .ok bubbleUpdated => (s2.store bubbleUpdated, .resolved bubbleUpdated)
      | .error _ => (s2, .pending)
    | .error err => (s1, .rejected (.REMOTE_FAILURE err))

/-- The method `getAll()`. -/
def getAll (s : Bubbles) : List Bubble := s.bubbles

/-- The method `getBubbleById(id)`: throws on a falsy id, otherwise
`_bubbles.find(bubble => bubble.id === id)`; `none` is `undefined`.  The
method assigns nothing, so it returns no new service state. -/
def getBubbleById (s : Bubbles) (id : Option String) : Except ErrorCase (Option Bubble) :=
  if !truthyArg id then .error .BAD_REQUEST
  else .ok (s.bubbles.find? (fun bubble => some bubble.id == id))

/-- The method `getBubbleByJid(jid)`: as `getBubbleById`, on `bubble.jid`. -/
def getBubbleByJid (s : Bubbles) (jid : Option String) : Except ErrorCase (Option Bubble) :=
  if !truthyArg jid then .error .BAD_REQUEST
  else .ok (s.bubbles.find? (fun bubble => some bubble.jid == jid))

/-- The method `acceptInvitationToJoinBubble(bubble)`.  The argument check is
outside the promise, so a missing bubble throws to the caller.  The re-fetch
has no rejection handler. -/
def acceptInvitationToJoinBubble (rest : Rest) (s : Bubbles) (bubble : Option Bubble) :
    Bubbles × Call Bubble :=
  match bubble with
  | none => (s, .threw .BAD_REQUEST)
  | some bubble =>
    let s1 := s.record (.restAcceptInvitationToJoinBubble bubble.id)
    match rest.acceptInvitationToJoinBubble s.calls bubble.id with
    | .ok _ =>
      let s2 := s1.record (.xmppSendInitialBubblePresence bubble.jid)
      let s3 := s2.record (.restGetBubble bubble.id)
      match rest.getBubble s2.calls bubble.id with
      | .ok bubbleUpdated => (s3.store bubbleUpdated, .returned (.resolved bubbleUpdated))
      | .error _ => (s3, .returned .pending)
    | .error err => (s1, .returned (.rejected (.REMOTE_FAILURE err)))

/-- The method `declineInvitationToJoinBubble(bubble)`. -/
def declineInvitationToJoinBubble (rest : Rest) (s : Bubbles) (bubble : Option Bubble) :
    Bubbles × Call Bubble :=
  match bubble with
  | none => (s, .threw .BAD_REQUEST)
  | some bubble =>
    let s1 := s.record (.restDeclineInvitationToJoinBubble bubble.id)
    match rest.declineInvitationToJoinBubble s.calls bubble.id with
    | .ok _ =>
      let s2 := s1.record (.restGetBubble bubble.id)
      match rest.getBubble s1.calls bubble.id with
      | .ok bubbleUpdated => (s2.store bubbleUpdated, .returned (.resolved bubbleUpdated))
      | .error _ => (s2, .returned .pending)
    | .error err => (s1, .returned (.rejected (.REMOTE_FAILURE err)))

/-- The method `getAllPendingBubbles()`: the bubbles for which the inner
filter (entries of the connected user with status `invited`) is not empty. -/
def getAllPendingBubbles (rest : Rest) (s : Bubbles) : List Bubble :=
  s.bubbles.filter (fun bubble =>
    let invitation := bubble.users.filter (fun user =>
      user.userId == rest.userId && user.status == "invited")
    invitation.length > 0)

/-- What `setBubbleCustomData` leaves behind: the service state, the bubble
object that was passed in (the method assigns to its `customData`), and what
the caller observes. -/
structure CustomDataRun where
  service : Bubbles
  argument : Option Bubble
  call : Call Bubble
deriving DecidableEq, Repr

/-- The method `setBubbleCustomData(bubble, customData)`.  On success the
method assigns `bubble.customData = customDataSet` on the object it was given
and resolves with that object.  The local array is held by value here: whether
the argument is also an element of `_bubbles` is not tracked. -/
def setBubbleCustomData (rest : Rest) (s : Bubbles) (bubble : Option Bubble)
    (customData : List (String × String)) : CustomDataRun :=
  match bubble with
  | none => { service := s, argument := none, call := .threw .BAD_REQUEST }
  | some bubble =>
    let s1 := s.record (.restSetBubbleCustomData bubble.id customData)
    match rest.setBubbleCustomData s.calls bubble.id customData with
    | .ok customDataSet =>
      let updated := { bubble with customData := customDataSet }
      { service := s1, argument := some updated, call := .returned (.resolved updated) }
    | .error err =>
      { service := s1, argument := some bubble,
        call := .returned (.rejected (.REMOTE_FAILURE err)) }

/-- The payload of `rainbow_invitationreceived`. -/
structure Invitation where
  bubbleId : String
deriving DecidableEq, Repr

/-- The payload of the two affiliation events. -/
structure Affiliation where
  bubbleId : String
  status : String
deriving DecidableEq, Repr

/-- The method `_onInvitationReceived(invitation)`: re-fetch, replace the
stored bubble when `foundIndex > -1` and push otherwise, then emit the details
event.  A failed re-fetch has no handler: nothing else happens. -/
def _onInvitationReceived (rest : Rest) (s : Bubbles) (invitation : Invitation) : Bubbles :=
  let s1 := s.record (.restGetBubble invitation.bubbleId)
  match rest.getBubble s.calls invitation.bubbleId with
  | .ok bubbleUpdated =>
    let foundIndex := findIndex (fun bubbleItem => bubbleItem.id == bubbleUpdated.id) s1.bubbles
    let s2 : Bubbles :=
      if foundIndex > -1 then { s1 with bubbles := assignIndex s1.bubbles foundIndex bubbleUpdated }
      else { s1 with bubbles := s1.bubbles ++ [bubbleUpdated] }
    s2.record (.eventEmitterEmit "rainbow_invitationdetailsreceived" bubbleUpdated)
  | .error _ => s1

/-- The method `_onAffiliationChanged(affiliation)`. -/
def _onAffiliationChanged (rest : Rest) (s : Bubbles) (affiliation : Affiliation) : Bubbles :=
  let s1 := s.record (.restGetBubble affiliation.bubbleId)
  match rest.getBubble s.calls affiliation.bubbleId with
  | .ok bubbleUpdated =>
    let foundIndex := findIndex (fun bubbleItem => bubbleItem.id == bubbleUpdated.id) s1.bubbles
    let s2 : Bubbles :=
      if foundIndex > -1 then { s1 with bubbles := assignIndex s1.bubbles foundIndex bubbleUpdated }
      else { s1 with bubbles := s1.bubbles ++ [bubbleUpdated] }
    s2.record (.eventEmitterEmit "rainbow_affiliationdetailschanged" bubbleUpdated)
  | .error _ => s1

/-- The method `_onOwnAffiliationChanged(affiliation)`: as above, and the
initial presence is sent when a known bubble comes with status `accepted` and
whenever the bubble was not known. -/
def _onOwnAffiliationChanged (rest : Rest) (s : Bubbles) (affiliation : Affiliation) : Bubbles :=
  let s1 := s.record (.restGetBubble affiliation.bubbleId)
  match rest.getBubble s.calls affiliation.bubbleId with
  | .ok bubbleUpdated =>
    let foundIndex := findIndex (fun bubbleItem => bubbleItem.id == bubbleUpdated.id) s1.bubbles
    let s2 : Bubbles :=
      if foundIndex > -1 then
        let s11 : Bubbles := { s1 with bubbles := assignIndex s1.bubbles foundIndex bubbleUpdated }
        if affiliation.status == "accepted" then
          s11.record (.xmppSendInitialBubblePresence bubbleUpdated.jid)
        else s11
      else
        let s12 : Bubbles := { s1 with bubbles := s1.bubbles ++ [bubbleUpdated] }
        s12.record (.xmppSendInitialBubblePresence bubbleUpdated.jid)
    s2.record (.eventEmitterEmit "rainbow_ownaffiliationdetailschanged" bubbleUpdated)
  | .error _ => s1

/-- The caller's view of `createBubble`: the method body is
`return new Promise(executor)`, and in both validation branches the executor
throws after it has rejected. -/
def createBubbleCall (rest : Rest) (s : Bubbles) (name description : Option String)
    (withHistory : Option Bool) : Bubbles × Call Bubble :=
  let run := createBubble rest s name description withHistory
  let thrown : Option ErrorCase :=
    if !truthyArg name then some .BAD_REQUEST
    else if !truthyArg description then some .BAD_REQUEST
    else none
  (run.1, newPromise ⟨run.2, thrown⟩)

/-- The caller's view of `closeBubble`: the executor throws after rejecting
when the bubble is missing. -/
def closeBubbleCall (rest : Rest) (s : Bubbles) (bubble : Option Bubble) : Bubbles × Call Bubble :=
  let run := closeBubble rest s bubble
  let thrown : Option ErrorCase := if bubble.isNone then some .BAD_REQUEST else none
  (run.1, newPromise ⟨run.2, thrown⟩)

/-- The caller's view of `deleteBubble`. -/
def deleteBubbleCall (rest : Rest) (s : Bubbles) (bubble : Option Bubble) :
    Bubbles × Call ErrorCase :=
  let run := deleteBubble rest s bubble
  let thrown : Option ErrorCase := if bubble.isNone then some .BAD_REQUEST else none
  (run.1, newPromise ⟨run.2, thrown⟩)

/-- The caller's view of `leaveBubble`: the executor throws an error built from
`BAD_REQUEST.msg` after rejecting, both when the bubble is missing and when
there is no other moderator. -/
def leaveBubbleCall (rest : Rest) (s : Bubbles) (bubble : Option Bubble) : Bubbles × Call String :=
  let run := leaveBubble rest s bubble
  let thrown : Option ErrorCase :=
    match bubble with
    | none => some .BAD_REQUEST
    | some bubble =>
      match bubble.users.find? (fun user =>
        user.privilege == "moderator" && user.status == "accepted" && user.userId != rest.userId) with
      | none => some .BAD_REQUEST
      | some _ => none
  (run.1, newPromise ⟨run.2, thrown⟩)

/-- The caller's view of `inviteContactToBubble`. -/
def inviteContactToBubbleCall (rest : Rest) (s : Bubbles) (contact : Option Contact)
    (bubble : Option Bubble) (isModerator withInvitation : Bool) (reason : Option String) :
    Bubbles × Call Bubble :=
  let run := inviteContactToBubble rest s contact bubble isModerator withInvitation reason
  let thrown : Option ErrorCase :=
    if contact.isNone then some .BAD_REQUEST
    else if bubble.isNone then some .BAD_REQUEST
    else none
  (run.1, newPromise ⟨run.2, thrown⟩)

/-- The caller's view of `removeContactFromBubble`. -/
def removeContactFromBubbleCall (rest : Rest) (s : Bubbles) (contact : Option Contact)
    (bubble : Option Bubble) : Bubbles × Call Bubble :=
  let run := removeContactFromBubble rest s contact bubble
  let thrown : Option ErrorCase :=
    if contact.isNone then some .BAD_REQUEST
    else if bubble.isNone then some .BAD_REQUEST
    else none
  (run.1, newPromise ⟨run.2, thrown⟩)

/-- The calls of `removeContactFromBubble` that the loop `unsubscribeParticipants`
makes, in order: each participant id it passes, with the outcome of that
removal.  It follows the recursion of `unsubscribeParticipants`. -/
def unsubscribeAttempts (rest : Rest) (bubble : Bubble) :
    List String → Bubbles → List (String × Promise Bubble)
  | [], _ => []
  | participantID :: participantsIDList, s =>
    if truthy participantID then
      match removeContactFromBubble rest s (some ⟨participantID⟩) (some bubble) with
      | (s1, .resolved value) =>
        (participantID, .resolved value) :: unsubscribeAttempts rest bubble participantsIDList s1
      | (_, outcome) => [(participantID, outcome)]
    else []

/-! ## Test fixtures -/

/-- A backend that answers every room-returning call with `b` and succeeds on
every other call. -/
def constRest (userId : String) (b : Bubble) : Rest where
  userId := userId
  createBubble := fun _ _ _ _ => .ok b
  deleteBubble := fun _ _ => .ok ()
  getBubble := fun _ _ => .ok b
  leaveBubble := fun _ _ => .ok "left"
  removeInvitationOfContactToBubble := fun _ _ _ => .ok b
  unsubscribeContactFromBubble := fun _ _ _ => .ok b
  inviteContactToBubble := fun _ _ _ _ _ _ => .ok ()
  acceptInvitationToJoinBubble := fun _ _ => .ok "accepted"
  declineInvitationToJoinBubble := fun _ _ => .ok "declined"
  setBubbleCustomData := fun _ _ customData => .ok customData

/-- A backend on which every call fails with the error `err`. -/
def failRest (userId : String) (err : String) : Rest where
  userId := userId
  createBubble := fun _ _ _ _ => .error err
  deleteBubble := fun _ _ => .error err
  getBubble := fun _ _ => .error err
  leaveBubble := fun _ _ => .error err
  removeInvitationOfContactToBubble := fun _ _ _ => .error err
  unsubscribeContactFromBubble := fun _ _ _ => .error err
  inviteContactToBubble := fun _ _ _ _ _ _ => .error err
  acceptInvitationToJoinBubble := fun _ _ => .error err
  declineInvitationToJoinBubble := fun _ _ => .error err
  setBubbleCustomData := fun _ _ _ => .error err

/-- A backend on which every call succeeds, with snapshot `b`, except the
re-fetch `getBubble`, which fails with `err`. -/
def refetchDownRest (userId : String) (b : Bubble) (err : String) : Rest :=
  { constRest userId b with getBubble := fun _ _ => .error err }

/-- A room with the given id and users. -/
def mkBubble (id : String) (users : List User) : Bubble :=
  { id := id, jid := id ++ "@muc", name := "n", description := "d", users := users, customData := [] }

/-- A backend whose `createBubble` answers with a room named after, and
identified by, the requested name; every other call succeeds. -/
def echoRest : Rest :=
  { constRest "me" (mkBubble "r1" []) with
    createBubble := fun _ name _ _ => .ok (mkBubble name []) }

/-- The empty service state right after `start`. -/
def Bubbles.init : Bubbles := { bubbles := [], calls := [], presenceListeners := [] }

/-- The room-level reading of "the local user is the only accepted moderator":
the local user holds an accepted moderator membership and nobody else does. -/
def onlyAcceptedModerator (userId : String) (bubble : Bubble) : Prop :=
  (∃ user ∈ bubble.users,
      user.userId = userId ∧ user.privilege = "moderator" ∧ user.status = "accepted") ∧
  ∀ user ∈ bubble.users,
      user.privilege = "moderator" → user.status = "accepted" → user.userId = userId

/-- Some membership other than the local user's is an accepted moderator. -/
def hasOtherModerator (userId : String) (bubble : Bubble) : Prop :=
  ∃ user ∈ bubble.users,
    user.privilege = "moderator" ∧ user.status = "accepted" ∧ user.userId ≠ userId

/-- What a close step may do to the service: extend the call log with calls
none of which is a remote delete, and keep the ids of the local rooms, in
order. -/
def ClosePreserves (s s1 : Bubbles) : Prop :=
  (∃ added : List Effect, s1.calls = s.calls ++ added ∧
      ∀ bubbleId, Effect.restDeleteBubble bubbleId ∉ added) ∧
  s1.bubbles.map Bubble.id = s.bubbles.map Bubble.id ∧
  s1.presenceListeners = s.presenceListeners

/-- A closed snapshot of room `r1`: its only member has been unsubscribed. -/
def closedRoom : Bubble := mkBubble "r1" [⟨"a", "user", "unsubscribed"⟩]

/-- An open room `r1` with one accepted member besides the local user. -/
def openRoom : Bubble := mkBubble "r1" [⟨"a", "user", "accepted"⟩]

/-- A room whose first member carries an empty user id. -/
def blankIdRoom : Bubble := mkBubble "r1" [⟨"", "user", "accepted"⟩, ⟨"b", "user", "accepted"⟩]

/-- An open room `r1` with two accepted members and the local user as
accepted moderator. -/
def teamRoom : Bubble :=
  mkBubble "r1" [⟨"a", "user", "accepted"⟩, ⟨"me", "moderator", "accepted"⟩, ⟨"b", "user", "invited"⟩]

/-- Replace-if-known, append-if-not: `after` is `before` with the first room
carrying the snapshot's id replaced by the snapshot (same length, every other
entry in place) when there is one, and `before` with the snapshot appended
otherwise; either way `after` contains the snapshot. -/
def Upserted (before : List Bubble) (snap : Bubble) (after : List Bubble) : Prop :=
  ((∃ x ∈ before, x.id = snap.id) →
    ∃ pre old post, before = pre ++ old :: post ∧ old.id = snap.id ∧
      (∀ y ∈ pre, y.id ≠ snap.id) ∧ after = pre ++ snap :: post ∧
      after.length = before.length) ∧
  ((∀ x ∈ before, x.id ≠ snap.id) →
    after = before ++ [snap] ∧ after.length = before.length + 1) ∧
  snap ∈ after

/-! ## The session orchestrator (`lib/Core.js`) -/

/-- Modelled from the spec: the states of `./common/StateManager`, which is not
among the sources. -/
inductive SessionState where
  | INIT
  | STARTED
  | CONNECTING
  | CONNECTED
  | READY
  | RECONNECTING
  | DISCONNECTED
  | FAILED
  | STOPPED
deriving DecidableEq, Repr

/-- The modules `Core.start` starts. -/
inductive CoreModule where
  | stateManager
  | http
  | cpaas
  | rest
  | xmpp
  | im
  | presence
  | contacts
  | bubbles
  | admin
  | fileServer
deriving DecidableEq, Repr

/-- What the orchestrator does to its collaborators, in the order it does it. -/
inductive CoreEvent where
  | start (module : CoreModule)
  | transitTo (state : SessionState)
  | xmppStop
  | restSignin
  | xmppSignin
  | onTokenRenewed
  | onTokenExpired
  | startTokenSurvey
  | getRosters
  | getBubbles
  | sendInitialPresence
  | enableCarbon
  | getBots
  | restReconnect
deriving DecidableEq, Repr

/-- The outcome of a promise of the orchestrator; it rejects with whatever it
was given, a message or a collaborator's error. -/
inductive CorePromise (α : Type) where
  | resolved (value : α)
  | rejected (err : String)
  | pending
deriving DecidableEq, Repr

/-- The options and the collaborators of the orchestrator: how each call on a
collaborator ends.  `cpaasStart` resolves with the token handed to
`restStart`; `getBots` resolves with the bots' jids or with `null`. -/
structure CoreEnv where
  hasCredentials : Bool
  useCLIMode : Bool
  useXMPP : Bool
  stateManagerStart : Except String Unit
  httpStart : Except String Unit
  cpaasStart : Except String String
  restStart : String → Except String Unit
  xmppStart : Bool → Except String Unit
  imStart : Except String Unit
  presenceStart : Except String Unit
  contactsStart : Except String Unit
  bubblesStart : Except String Unit
  adminStart : Except String Unit
  fileServerStart : Except String Unit
  restSignin : Except String String
  xmppSignin : Except String Unit
  getRosters : Except String Unit
  getBubbles : Except String Unit
  sendInitialPresence : Except String Unit
  enableCarbon : Except String Unit
  getBots : Except String (Option (List String))
  restReconnect : Except String Unit

/-- The orchestrator: the state held by the state manager, the log of what it
did, and `_botsjid`. -/
structure Core where
  state : SessionState
  log : List CoreEvent
  botsjid : List String
deriving DecidableEq, Repr

/-- Append an event to the log. -/
def Core.record (c : Core) (e : CoreEvent) : Core :=
  { c with log := c.log ++ [e] }

/-- Modelled from the spec: `_stateManager.transitTo(state)` of
`./common/StateManager`, not among the sources; a transition is the only way
the state changes. -/
def Core.transitTo (c : Core) (state : SessionState) : Core :=
  { c with state := state, log := c.log ++ [.transitTo state] }

/-- The method `start()`: without credentials it rejects at once; otherwise it
chains the modules' `start`, each `then` running only when the previous promise
resolved and the single `catch` rejecting with the first error. -/
def Core.start (env : CoreEnv) (c : Core) : Core × CorePromise Unit :=
  if !env.hasCredentials then
    (c, .rejected "Credentials are missing. Check your configuration!")
  else
    let c := c.record (.start .stateManager)
    match env.stateManagerStart with
    | .error err => (c, .rejected err)
    | .ok _ =>
    let c := c.record (.start .http)
    match env.httpStart with
    | .error err => (c, .rejected err)
    | .ok _ =>
    let c := c.record (.start .cpaas)
    match env.cpaasStart with
    | .error err => (c, .rejected err)
    | .ok token =>
    let c := c.record (.start .rest)
    match env.restStart token with
    | .error err => (c, .rejected err)
    | .ok _ =>
    let c := c.record (.start .xmpp)
    match env.xmppStart env.useXMPP with
    | .error err => (c, .rejected err)
    | .ok _ =>
    let c := c.record (.start .im)
    match env.imStart with
    | .error err => (c, .rejected err)
    | .ok _ =>
    let c := c.record (.start .presence)
    match env.presenceStart with
    | .error err => (c, .rejected err)
    | .ok _ =>
    let c := c.record (.start .contacts)
    match env.contactsStart with
    | .error err => (c, .rejected err)
    | .ok _ =>
    let c := c.record (.start .bubbles)
    match env.bubblesStart with
    | .error err => (c, .rejected err)
    | .ok _ =>
    let c := c.record (.start .admin)
    match env.adminStart with
    | .error err => (c, .rejected err)
    | .ok _ =>
    let c := c.record (.start .fileServer)
    match env.fileServerStart with
    | .error err => (c, .rejected err)
    | .ok _ => (c.transitTo .STARTED, .resolved ())

/-- The closure `_signin(forceStopXMPP)`: optionally stop the XMPP service,
then REST sign-in, then XMPP sign-in; resolves with the REST answer. -/
def Core._signin (env : CoreEnv) (c : Core) (forceStopXMPP : Bool) : Core × CorePromise String :=
  let c := if forceStopXMPP then c.record .xmppStop else c
  let c := c.record .restSignin
  match env.restSignin with
  | .error err => (c, .rejected err)
  | .ok json =>
    let c := c.record .xmppSignin
    match env.xmppSignin with
    | .error err => (c, .rejected err)
    | .ok _ => (c, .resolved json)

/-- The closure `_retrieveInformation()`: rosters, bubbles, initial presence,
carbon, bots, one after the other; the bots' jids are kept (none for `null`). -/
def Core._retrieveInformation (env : CoreEnv) (c : Core) : Core × CorePromise Unit :=
  let c := c.record .getRosters
  match env.getRosters with
  | .error err => (c, .rejected err)
  | .ok _ =>
  let c := c.record .getBubbles
  match env.getBubbles with
  | .error err => (c, .rejected err)
  | .ok _ =>
  let c := c.record .sendInitialPresence
  match env.sendInitialPresence with
  | .error err => (c, .rejected err)
  | .ok _ =>
  let c := c.record .enableCarbon
  match env.enableCarbon with
  | .error err => (c, .rejected err)
  | .ok _ =>
  let c := c.record .getBots
  match env.getBots with
  | .error err => (c, .rejected err)
  | .ok bots => ({ c with botsjid := bots.getD [] }, .resolved ())

/-- The closure `_tokenSurvey()`: nothing in CLI mode; otherwise the two token
listeners are registered and the survey is started. -/
def Core._tokenSurvey (env : CoreEnv) (c : Core) : Core :=
  if env.useCLIMode then c
  else ((c.record .onTokenRenewed).record .onTokenExpired).record .startTokenSurvey

/-- The method `signin(forceStopXMPP)`.  After `_signin` resolved: token
survey, transition to `CONNECTED`, then in CLI mode `resolve()` (the promise is
settled with `undefined`) and otherwise `_retrieveInformation()`; the next
`then` makes the transition to `READY` and calls `resolve(json)`, which has no
effect on a promise that is already settled. -/
def Core.signin (env : CoreEnv) (c : Core) (forceStopXMPP : Bool) :
    Core × CorePromise (Option String) :=
  match Core._signin env c forceStopXMPP with
  | (c1, .rejected err) => (c1, .rejected err)
  | (c1, .pending) => (c1, .pending)
  | (c1, .resolved json) =>
    let c2 := (Core._tokenSurvey env c1).transitTo .CONNECTED
    if env.useCLIMode then (c2.transitTo .READY, .resolved none)
    else
      match Core._retrieveInformation env c2 with
      | (c3, .resolved _) => (c3.transitTo .READY, .resolved (some json))
      | (c3, .rejected err) => (c3, .rejected err)
      | (c3, .pending) => (c3, .pending)

/-- Forget the value an answer carries. -/
def discard {α : Type} : Except String α → Except String Unit
  | .ok _ => .ok ()
  | .error err => .error err

/-- The steps of `start()` in the order of the chain, each with the way it
ends; the REST session is started with the token the gateway resolved with. -/
def startChain (env : CoreEnv) : List (CoreEvent × Except String Unit) :=
  [(.start .stateManager, env.stateManagerStart),
   (.start .http, env.httpStart),
   (.start .cpaas, discard env.cpaasStart),
   (.start .rest, match env.cpaasStart with
      | .ok token => env.restStart token
      | .error err => .error err),
   (.start .xmpp, env.xmppStart env.useXMPP),
   (.start .im, env.imStart),
   (.start .presence, env.presenceStart),
   (.start .contacts, env.contactsStart),
   (.start .bubbles, env.bubblesStart),
   (.start .admin, env.adminStart),
   (.start .fileServer, env.fileServerStart)]

/-- The steps of `_retrieveInformation()` in order, each with the way it ends. -/
def resyncChain (env : CoreEnv) : List (CoreEvent × Except String Unit) :=
  [(.getRosters, env.getRosters),
   (.getBubbles, env.getBubbles),
   (.sendInitialPresence, env.sendInitialPresence),
   (.enableCarbon, env.enableCarbon),
   (.getBots, discard env.getBots)]

/-- A promise chain run step by step: each step is logged when it is issued,
and the first step that fails ends the chain with its error. -/
def runChain : List (CoreEvent × Except String Unit) → List CoreEvent → List CoreEvent × Option String
  | [], log => (log, none)
  | (event, .ok _) :: steps, log => runChain steps (log ++ [event])
  | (event, .error err) :: _, log => (log ++ [event], some err)

/-- An environment in which every collaborator call succeeds. -/
def okEnv (useCLIMode : Bool) : CoreEnv where
  hasCredentials := true
  useCLIMode := useCLIMode
  useXMPP := true
  stateManagerStart := .ok ()
  httpStart := .ok ()
  cpaasStart := .ok "app-token"
  restStart := fun _ => .ok ()
  xmppStart := fun _ => .ok ()
  imStart := .ok ()
  presenceStart := .ok ()
  contactsStart := .ok ()
  bubblesStart := .ok ()
  adminStart := .ok ()
  fileServerStart := .ok ()
  restSignin := .ok "account"
  xmppSignin := .ok ()
  getRosters := .ok ()
  getBubbles := .ok ()
  sendInitialPresence := .ok ()
  enableCarbon := .ok ()
  getBots := .ok none
  restReconnect := .ok ()

/-- The orchestrator as the constructor leaves it. -/
def Core.init : Core := { state := .INIT, log := [], botsjid := [] }

/-- The event `signin(forceStopXMPP)` logs first when it is asked to stop the
XMPP service. -/
def stopEvents (forceStopXMPP : Bool) : List CoreEvent :=
  if forceStopXMPP then [.xmppStop] else []

/-- What a successful sign-in outside CLI mode logs up to the transition to
`CONNECTED`: both sign-ins, the token survey, the transition. -/
def connectedEvents : List CoreEvent :=
  [.restSignin, .xmppSignin, .onTokenRenewed, .onTokenExpired, .startTokenSurvey,
   .transitTo .CONNECTED]

/-- The listener of `rainbow_xmppreconnected`: REST reconnect, then the
transition to `CONNECTED` and the re-synchronization, then the transition to
`READY`; the single `catch` makes the transition to `FAILED`. -/
def Core.rainbow_xmppreconnected (env : CoreEnv) (c : Core) : Core :=
  let c := c.record .restReconnect
  match env.restReconnect with
  | .error _ => c.transitTo .FAILED
  | .ok _ =>
    let c := c.transitTo .CONNECTED
    match Core._retrieveInformation env c with
    | (c1, .resolved _) => c1.transitTo .READY
    | (c1, .rejected _) => c1.transitTo .FAILED
    | (c1, .pending) => c1

/-- The listener of `rainbow_xmppreconnectingattempt`. -/
def Core.rainbow_xmppreconnectingattempt (c : Core) : Core :=
  c.transitTo .RECONNECTING

/-- The listener of `rainbow_xmppdisconnect`. -/
def Core.rainbow_xmppdisconnect (c : Core) : Core :=
  c.transitTo .DISCONNECTED

/-- The room the backend creates in the scenario of a creation followed by an
own-affiliation event. -/
def createdRoom : Bubble := mkBubble "r1" [⟨"me", "moderator", "accepted"⟩]

/-- No two rooms of the local array share an id. -/
def DistinctIds (s : Bubbles) : Prop := (s.bubbles.map Bubble.id).Nodup

/-! ## Theorems -/

/-- The search `leaveBubble` runs finds nothing exactly when there is no other
accepted moderator. -/
theorem find_otherModerator_eq_none (userId : String) (bubble : Bubble) :
    bubble.users.find? (fun user =>
        user.privilege == "moderator" && user.status == "accepted" && user.userId != userId) = none
      ↔ ¬ hasOtherModerator userId bubble := by
  simp [hasOtherModerator, List.find?_eq_none]

/-- On a non-null bubble `isBubbleClosed` is a function of the list of
statuses alone. -/
theorem isBubbleClosed_some (bubble : Bubble) :
    isBubbleClosed (some bubble) =
      .ok ((bubble.users.map User.status).all (fun st => !(st == "invited" || st == "accepted"))) := by
  simp only [isBubbleClosed]
  cases h : bubble.users.find? (fun user => user.status == "invited" || user.status == "accepted") with
  | none =>
    have h1 := List.find?_eq_none.1 h
    have : (bubble.users.map User.status).all (fun st => !(st == "invited" || st == "accepted")) = true := by
      simp only [List.all_eq_true, List.mem_map]
      rintro st ⟨user, hu, rfl⟩
      simpa using h1 user hu
    simp only [h, this]
  | some user =>
    have hp := List.find?_some h
    have hm := List.mem_of_find?_eq_some h
    have : (bubble.users.map User.status).all (fun st => !(st == "invited" || st == "accepted")) = false := by
      rw [Bool.eq_false_iff]
      intro hall
      simp only [List.all_eq_true, List.mem_map] at hall
      have := hall user.status ⟨user, hm, rfl⟩
      simp_all
    simp only [h, this]

/-- C1: for a non-null bubble `isBubbleClosed` always returns, and returns true
exactly when no user has status `invited` or `accepted`; so it is true on an
empty user list, and two bubbles with the same list of statuses get the same
answer. -/
theorem isBubbleClosed_iff_no_active_user (bubble : Bubble) :
    (isBubbleClosed (some bubble) = .ok true ↔
      ∀ user ∈ bubble.users, user.status ≠ "invited" ∧ user.status ≠ "accepted") ∧
    (isBubbleClosed (some bubble) = .ok false ↔
      ∃ user ∈ bubble.users, user.status = "invited" ∨ user.status = "accepted") ∧
    (bubble.users = [] → isBubbleClosed (some bubble) = .ok true) ∧
    (∀ other : Bubble, other.users.map User.status = bubble.users.map User.status →
      isBubbleClosed (some other) = isBubbleClosed (some bubble)) := by
  refine ⟨?_, ?_, ?_, ?_⟩
  · rw [isBubbleClosed_some]
    simp only [Except.ok.injEq, List.all_eq_true, List.mem_map]
    constructor
    · intro h user hu
      have := h user.status ⟨user, hu, rfl⟩
      simpa using this
    · rintro h st ⟨user, hu, rfl⟩
      simpa using h user hu
  · rw [isBubbleClosed_some]
    simp only [Except.ok.injEq]
    rw [Bool.eq_false_iff]
    simp only [ne_eq, List.all_eq_true, List.mem_map, not_forall]
    constructor
    · rintro ⟨st, ⟨user, hu, rfl⟩, h⟩
      refine ⟨user, hu, ?_⟩
      by_contra hc
      exact h (by simpa using hc)
    · rintro ⟨user, hu, h⟩
      refine ⟨user.status, ⟨user, hu, rfl⟩, ?_⟩
      intro hc
      have : ¬ (user.status = "invited" ∨ user.status = "accepted") := by simpa using hc
      exact this h
  · intro h
    simp [isBubbleClosed, h]
  · intro other h
    rw [isBubbleClosed_some, isBubbleClosed_some, h]

/-- Without another accepted moderator `leaveBubble` rejects with `FORBIDDEN`
and touches nothing. -/
theorem leaveBubble_of_no_otherModerator (rest : Rest) (s : Bubbles) (bubble : Bubble)
    (h : ¬ hasOtherModerator rest.userId bubble) :
    leaveBubble rest s (some bubble) = (s, .rejected .FORBIDDEN) := by
  have hf := (find_otherModerator_eq_none rest.userId bubble).2 h
  simp only [leaveBubble, hf]

/-- With another accepted moderator `leaveBubble` issues the remote leave and
its outcome follows the backend's answer. -/
theorem leaveBubble_of_otherModerator (rest : Rest) (s : Bubbles) (bubble : Bubble)
    (h : hasOtherModerator rest.userId bubble) :
    leaveBubble rest s (some bubble) =
      match rest.leaveBubble s.calls bubble.id with
      | .ok json =>
        ({ s with calls := s.calls ++ [.restLeaveBubble bubble.id,
            .xmppSendUnavailableBubblePresence bubble.jid] }, .resolved json)
      | .error err =>
        ({ s with calls := s.calls ++ [.restLeaveBubble bubble.id] }, .rejected (.REMOTE_FAILURE err)) := by
  cases hf : bubble.users.find? (fun user =>
      user.privilege == "moderator" && user.status == "accepted" && user.userId != rest.userId) with
  | none => exact absurd h ((find_otherModerator_eq_none rest.userId bubble).1 hf)
  | some user =>
    simp only [leaveBubble, hf]
    cases rest.leaveBubble s.calls bubble.id <;> simp [Bubbles.record]

/-- C2: for a non-null room, `leaveBubble` is rejected with `FORBIDDEN` if and
only if no membership is an accepted moderator with a user id different from
the local user's; and when it is rejected with `FORBIDDEN` the service state is
untouched, so the call log has gained neither a remote leave nor a presence
signal. -/
theorem leaveBubble_forbidden_iff (rest : Rest) (s : Bubbles) (bubble : Bubble) :
    ((leaveBubble rest s (some bubble)).2 = .rejected .FORBIDDEN ↔
      ¬ ∃ user ∈ bubble.users,
          user.privilege = "moderator" ∧ user.status = "accepted" ∧ user.userId ≠ rest.userId) ∧
    ((leaveBubble rest s (some bubble)).2 = .rejected .FORBIDDEN →
      (leaveBubble rest s (some bubble)).1 = s ∧
      (leaveBubble rest s (some bubble)).1.calls = s.calls) := by
  by_cases h : hasOtherModerator rest.userId bubble
  · have hl := leaveBubble_of_otherModerator rest s bubble h
    have hne : (leaveBubble rest s (some bubble)).2 ≠ .rejected .FORBIDDEN := by
      rw [hl]
      cases rest.leaveBubble s.calls bubble.id <;> simp
    exact ⟨⟨fun hr => absurd hr hne, fun hn => absurd h hn⟩, fun hr => absurd hr hne⟩
  · have hl := leaveBubble_of_no_otherModerator rest s bubble h
    rw [hl]
    exact ⟨⟨fun _ => h, fun _ => rfl⟩, fun _ => ⟨rfl, rfl⟩⟩

/-- C3 (failing input): the local user `me` is a plain member of a room whose
only moderator has not accepted yet, so `me` is not the only accepted
moderator, and the remote leave would succeed; yet `leaveBubble` rejects with
`FORBIDDEN` and calls nothing, although the documentation of the method asks
for another moderator only when the connected user is a moderator. -/
theorem leaveBubble_plain_member_forbidden :
    ¬ onlyAcceptedModerator "me"
        (mkBubble "r1" [⟨"me", "user", "accepted"⟩, ⟨"boss", "moderator", "invited"⟩]) ∧
    (constRest "me" (mkBubble "r1" [])).leaveBubble [] "r1" = .ok "left" ∧
    leaveBubble (constRest "me" (mkBubble "r1" [])) Bubbles.init
        (some (mkBubble "r1" [⟨"me", "user", "accepted"⟩, ⟨"boss", "moderator", "invited"⟩]))
      = (Bubbles.init, .rejected .FORBIDDEN) := by
  refine ⟨?_, rfl, ?_⟩
  · rintro ⟨⟨user, hu, -, hp, hs⟩, -⟩
    simp [mkBubble] at hu
    rcases hu with rfl | rfl
    · simp at hp
    · simp at hs
  · decide

/-- The guard of `leaveBubble` as coded: the method fails with `FORBIDDEN`,
calling nothing, whenever the room has no accepted moderator other than the
local user — in particular when the local user is the only accepted moderator;
whenever there is another accepted moderator and the remote leave succeeds, it
resolves with the remote result after exactly one remote leave and one
unavailable-presence signal to the room's jid. -/
theorem leaveBubble_outcome (rest : Rest) (s : Bubbles) (bubble : Bubble) :
    (¬ hasOtherModerator rest.userId bubble →
      leaveBubble rest s (some bubble) = (s, .rejected .FORBIDDEN)) ∧
    (onlyAcceptedModerator rest.userId bubble →
      leaveBubble rest s (some bubble) = (s, .rejected .FORBIDDEN)) ∧
    (hasOtherModerator rest.userId bubble →
      ∀ json, rest.leaveBubble s.calls bubble.id = .ok json →
        leaveBubble rest s (some bubble) =
          ({ s with calls := s.calls ++ [.restLeaveBubble bubble.id,
              .xmppSendUnavailableBubblePresence bubble.jid] }, .resolved json)) := by
  refine ⟨leaveBubble_of_no_otherModerator rest s bubble, ?_, ?_⟩
  · rintro ⟨-, honly⟩
    apply leaveBubble_of_no_otherModerator
    rintro ⟨user, hu, hp, hs, hne⟩
    exact hne (honly user hu hp hs)
  · intro h json hj
    rw [leaveBubble_of_otherModerator rest s bubble h, hj]

/-- Validation of `createBubble`: a falsy name or description rejects with
`BAD_REQUEST` before anything else happens. -/
theorem createBubble_rejects_falsy (rest : Rest) (s : Bubbles)
    (name description : Option String) (withHistory : Option Bool)
    (h : truthyArg name = false ∨ truthyArg description = false) :
    createBubble rest s name description withHistory = (s, .rejected .BAD_REQUEST) := by
  unfold createBubble
  rcases h with h | h
  · simp [h]
  · by_cases hn : truthyArg name = true <;> simp [h, hn]

/-- C4: with a falsy `name` or a falsy `description`, `createBubble` rejects
with `BAD_REQUEST` and returns the service state as it was: no remote create,
no presence signal, no listener, same local rooms. -/
theorem createBubble_bad_request (rest : Rest) (s : Bubbles) (name description : Option String)
    (withHistory : Option Bool)
    (h : truthyArg name = false ∨ truthyArg description = false) :
    createBubble rest s name description withHistory = (s, .rejected .BAD_REQUEST) := by
  unfold createBubble
  rcases h with h | h
  · simp [h]
  · by_cases hn : truthyArg name = true <;> simp [h, hn]

/-- C4 (witness): `createBubble("", "desc")` on a backend that would succeed. -/
theorem createBubble_bad_request_witness :
    (truthyArg (some "") = false ∨ truthyArg (some "desc") = false) ∧
    createBubble (constRest "me" (mkBubble "r1" [])) Bubbles.init (some "") (some "desc") none
      = (Bubbles.init, .rejected .BAD_REQUEST) :=
  ⟨Or.inl (by decide),
   createBubble_bad_request (constRest "me" (mkBubble "r1" [])) Bubbles.init (some "") (some "desc")
     none (Or.inl (by decide))⟩

/-- Running a list of `createBubble` listeners appends their bubbles, in
order, to `_bubbles` and resolves each promise with its bubble. -/
theorem foldl_createBubbleListener (listeners : List Bubble) (t : Bubbles)
    (outcomes : List (Promise Bubble)) :
    listeners.foldl
        (fun (acc : Bubbles × List (Promise Bubble)) bubble =>
          ((createBubbleListener bubble acc.1).1, acc.2 ++ [(createBubbleListener bubble acc.1).2]))
        (t, outcomes)
      = ({ t with bubbles := t.bubbles ++ listeners }, outcomes ++ listeners.map Promise.resolved) := by
  induction listeners generalizing t outcomes with
  | nil => simp
  | cons b rest ih =>
    rw [List.foldl_cons, ih]
    simp [createBubbleListener]

/-- When the presence-changed event fires, the bubbles of all waiting
listeners are appended to `_bubbles` in registration order. -/
theorem emitBubblePresenceChanged_eq (s : Bubbles) :
    emitBubblePresenceChanged s =
      ({ bubbles := s.bubbles ++ s.presenceListeners, calls := s.calls, presenceListeners := [] },
        s.presenceListeners.map Promise.resolved) := by
  unfold emitBubblePresenceChanged
  rw [foldl_createBubbleListener]
  simp

/-- C5 (counterexample): the local array holds room `a`; a first
`createBubble` succeeded remotely with room `x` and is still waiting for the
presence event when a second `createBubble` succeeds remotely with room `r1`.
Before the event the array is still `a` alone; when the event fires the
listeners of both creations run, and the array is `a`, `x`, `r1`: not the
previous array with `r1` appended. -/
theorem createBubble_event_appends_waiting_rooms :
    (createBubble echoRest
        (createBubble echoRest ⟨[mkBubble "a" []], [], []⟩ (some "x") (some "desc") none).1
        (some "r1") (some "desc") none).1.bubbles = [mkBubble "a" []] ∧
    (emitBubblePresenceChanged
      (createBubble echoRest
        (createBubble echoRest ⟨[mkBubble "a" []], [], []⟩ (some "x") (some "desc") none).1
        (some "r1") (some "desc") none).1).1.bubbles
      = [mkBubble "a" [], mkBubble "x" [], mkBubble "r1" []] ∧
    (emitBubblePresenceChanged
      (createBubble echoRest
        (createBubble echoRest ⟨[mkBubble "a" []], [], []⟩ (some "x") (some "desc") none).1
        (some "r1") (some "desc") none).1).1.bubbles
      ≠ [mkBubble "a" []] ++ [mkBubble "r1" []] := by
  refine ⟨?_, ?_, ?_⟩ <;> decide

/-- C5 (amended): with a non-empty name and description and a backend create
that succeeds with room `b`, `createBubble` logs the remote create, the
listener registration and one initial presence to `b.jid`, in that order; it
leaves `_bubbles` unchanged and its promise unsettled, with its listener
registered last.  When the presence-changed event then fires, the rooms of the
creations that were already waiting are appended to `_bubbles` in registration
order and `b` after them, at the end, and the listener of this call resolves
with `b`; with no other creation waiting, `_bubbles` is the previous array
followed by `b` alone. -/
theorem createBubble_success (rest : Rest) (s : Bubbles) (name description : String)
    (withHistory : Option Bool) (b : Bubble)
    (hname : name ≠ "") (hdescription : description ≠ "")
    (hcreate : rest.createBubble s.calls name description (withHistory.getD false) = .ok b) :
    createBubble rest s (some name) (some description) withHistory =
      ({ bubbles := s.bubbles,
         calls := s.calls ++ [.restCreateBubble name description (withHistory.getD false),
                              .eventEmitterOnce "rainbow_onbubblepresencechanged",
                              .xmppSendInitialBubblePresence b.jid],
         presenceListeners := s.presenceListeners ++ [b] }, .pending) ∧
    (emitBubblePresenceChanged (createBubble rest s (some name) (some description) withHistory).1).1.bubbles
      = (s.bubbles ++ s.presenceListeners) ++ [b] ∧
    (emitBubblePresenceChanged (createBubble rest s (some name) (some description) withHistory).1).2.getLast?
      = some (.resolved b) ∧
    (s.presenceListeners = [] →
      emitBubblePresenceChanged (createBubble rest s (some name) (some description) withHistory).1
        = ({ bubbles := s.bubbles ++ [b],
             calls := s.calls ++ [.restCreateBubble name description (withHistory.getD false),
                                  .eventEmitterOnce "rainbow_onbubblepresencechanged",
                                  .xmppSendInitialBubblePresence b.jid],
             presenceListeners := [] }, [.resolved b])) := by
  have h : createBubble rest s (some name) (some description) withHistory =
      ({ bubbles := s.bubbles,
         calls := s.calls ++ [.restCreateBubble name description (withHistory.getD false),
                              .eventEmitterOnce "rainbow_onbubblepresencechanged",
                              .xmppSendInitialBubblePresence b.jid],
         presenceListeners := s.presenceListeners ++ [b] }, .pending) := by
    simp [createBubble, truthyArg, truthy, hname, hdescription, hcreate, Bubbles.record]
  rw [h, emitBubblePresenceChanged_eq]
  refine ⟨rfl, ?_, ?_, ?_⟩
  · simp
  · simp
  · intro hl
    simp [hl]

/-- C5 (witness): from the empty service, `createBubble("Team", "desc", false)`
on a backend that returns the room `r1` with jid `room@x`; after the
presence-changed event the local array holds exactly one room, with id `r1`. -/
theorem createBubble_success_witness :
    ((emitBubblePresenceChanged
        (createBubble (constRest "me" ⟨"r1", "room@x", "Team", "desc", [], []⟩) Bubbles.init
          (some "Team") (some "desc") (some false)).1).1.bubbles.map Bubble.id = ["r1"]) ∧
    (emitBubblePresenceChanged
        (createBubble (constRest "me" ⟨"r1", "room@x", "Team", "desc", [], []⟩) Bubbles.init
          (some "Team") (some "desc") (some false)).1).2
      = [.resolved ⟨"r1", "room@x", "Team", "desc", [], []⟩] := by
  have h := (createBubble_success (constRest "me" ⟨"r1", "room@x", "Team", "desc", [], []⟩)
    Bubbles.init "Team" "desc" (some false) ⟨"r1", "room@x", "Team", "desc", [], []⟩
    (by decide) (by decide) rfl).2.2.2 rfl
  rw [h]
  exact ⟨rfl, rfl⟩

/-- The status loop returns the status of the last user whose id is the
contact's, and the starting value when there is none. -/
theorem foldl_status_eq (users : List User) (contactId : String) (init : String) :
    users.foldl (fun status user => if user.userId == contactId then user.status else status) init
      = ((users.reverse.find? (fun user => user.userId == contactId)).map User.status).getD init := by
  induction users generalizing init with
  | nil => simp
  | cons u us ih =>
    rw [List.foldl_cons, ih, List.reverse_cons, List.find?_append]
    cases hf : us.reverse.find? (fun user => user.userId == contactId) with
    | some v => simp
    | none =>
      by_cases hu : u.userId = contactId <;> simp [hu]

/-- The three branches of `removeContactFromBubble` on non-null arguments. -/
theorem removeContactFromBubble_some (rest : Rest) (s : Bubbles) (contact : Contact)
    (bubble : Bubble) :
    removeContactFromBubble rest s (some contact) (some bubble) =
      if contactStatus bubble.users contact.id = "invited" then
        match rest.removeInvitationOfContactToBubble s.calls contact.id bubble.id with
        | .ok bubbleUpdated =>
          ((s.record (.restRemoveInvitationOfContactToBubble contact.id bubble.id)).store bubbleUpdated,
            .resolved bubbleUpdated)
        | .error err =>
          (s.record (.restRemoveInvitationOfContactToBubble contact.id bubble.id),
            .rejected (.REMOTE_FAILURE err))
      else if contactStatus bubble.users contact.id = "accepted" then
        match rest.unsubscribeContactFromBubble s.calls contact.id bubble.id with
        | .ok bubbleUpdated =>
          ((s.record (.restUnsubscribeContactFromBubble contact.id bubble.id)).store bubbleUpdated,
            .resolved bubbleUpdated)
        | .error err =>
          (s.record (.restUnsubscribeContactFromBubble contact.id bubble.id),
            .rejected (.REMOTE_FAILURE err))
      else (s, .resolved bubble) := by
  simp only [removeContactFromBubble, beq_iff_eq]

/-- Storing a snapshot does not touch the call log. -/
theorem store_calls (s : Bubbles) (b : Bubble) : (s.store b).calls = s.calls := rfl

/-- Recording a call does not touch the local rooms. -/
theorem record_bubbles (s : Bubbles) (e : Effect) : (s.record e).bubbles = s.bubbles := rfl

/-- C6: on a non-null contact and room, `removeContactFromBubble` dispatches on
the contact's membership status, which is the status of the last entry of
`room.users` carrying the contact's id (the empty string when the contact is
absent).  Status `invited`: the log gains exactly one cancel-invitation call
for (contact id, room id) and nothing else.  Status `accepted`: exactly one
unsubscribe call and nothing else.  Any other status, and an absent contact:
the service state is returned as it was (no call, same local rooms) and the
promise resolves with the room that was passed in. -/
theorem removeContactFromBubble_dispatch (rest : Rest) (s : Bubbles) (contact : Contact)
    (bubble : Bubble) :
    (contactStatus bubble.users contact.id =
      ((bubble.users.reverse.find? (fun user => user.userId == contact.id)).map User.status).getD "") ∧
    (contactStatus bubble.users contact.id = "invited" →
      (removeContactFromBubble rest s (some contact) (some bubble)).1.calls =
        s.calls ++ [.restRemoveInvitationOfContactToBubble contact.id bubble.id]) ∧
    (contactStatus bubble.users contact.id = "accepted" →
      (removeContactFromBubble rest s (some contact) (some bubble)).1.calls =
        s.calls ++ [.restUnsubscribeContactFromBubble contact.id bubble.id]) ∧
    (contactStatus bubble.users contact.id ≠ "invited" →
      contactStatus bubble.users contact.id ≠ "accepted" →
      removeContactFromBubble rest s (some contact) (some bubble) = (s, .resolved bubble)) ∧
    ((∀ user ∈ bubble.users, user.userId ≠ contact.id) →
      removeContactFromBubble rest s (some contact) (some bubble) = (s, .resolved bubble)) := by
  have hstatus := foldl_status_eq bubble.users contact.id ""
  refine ⟨hstatus, ?_, ?_, ?_, ?_⟩
  · intro h
    rw [removeContactFromBubble_some, if_pos h]
    cases rest.removeInvitationOfContactToBubble s.calls contact.id bubble.id <;>
      simp [store_calls, Bubbles.record]
  · intro h
    have hne : contactStatus bubble.users contact.id ≠ "invited" := by rw [h]; decide
    rw [removeContactFromBubble_some, if_neg hne, if_pos h]
    cases rest.unsubscribeContactFromBubble s.calls contact.id bubble.id <;>
      simp [store_calls, Bubbles.record]
  · intro h1 h2
    rw [removeContactFromBubble_some, if_neg h1, if_neg h2]
  · intro habsent
    have hnone : bubble.users.reverse.find? (fun user => user.userId == contact.id) = none := by
      rw [List.find?_eq_none]
      intro user hu
      simpa using habsent user (List.mem_reverse.1 hu)
    have hempty : contactStatus bubble.users contact.id = "" := by
      unfold contactStatus
      rw [hstatus, hnone]
      rfl
    rw [removeContactFromBubble_some, hempty, if_neg (by decide), if_neg (by decide)]

/-- C7: on a room for which `isBubbleClosed` holds, `closeBubble` resolves with
that very room and returns the service state as it was: no remote call of any
kind and the same local rooms. -/
theorem closeBubble_of_closed (rest : Rest) (s : Bubbles) (bubble : Bubble)
    (hclosed : isBubbleClosed (some bubble) = .ok true) :
    closeBubble rest s (some bubble) = (s, .resolved bubble) := by
  simp only [closeBubble, hclosed]

/-- C7 (witness): closing the closed room `r1` on a failing backend. -/
theorem closeBubble_of_closed_witness :
    isBubbleClosed (some closedRoom) = .ok true ∧
    closeBubble (failRest "me" "down") ⟨[closedRoom], [], []⟩ (some closedRoom)
      = (⟨[closedRoom], [], []⟩, .resolved closedRoom) :=
  ⟨rfl, closeBubble_of_closed (failRest "me" "down") ⟨[closedRoom], [], []⟩ closedRoom rfl⟩

/-- C8 (counterexample): the open room `r1` is closed twice in succession, the
same room object both times, on a backend whose snapshot of `r1` is closed.
The first call unsubscribes member `a` and re-fetches; the second call does
not short-circuit: it issues the same remote removal and re-fetch again. -/
theorem closeBubble_twice_repeats_removal :
    (closeBubble (constRest "me" closedRoom) ⟨[openRoom], [], []⟩ (some openRoom)).1.calls
      = [.restUnsubscribeContactFromBubble "a" "r1", .restGetBubble "r1"] ∧
    (closeBubble (constRest "me" closedRoom)
        (closeBubble (constRest "me" closedRoom) ⟨[openRoom], [], []⟩ (some openRoom)).1
        (some openRoom)).1.calls
      = [.restUnsubscribeContactFromBubble "a" "r1", .restGetBubble "r1",
         .restUnsubscribeContactFromBubble "a" "r1", .restGetBubble "r1"] := by
  constructor <;> decide

/-- C8 (amended): when a first `closeBubble` resolved with snapshot `snap` and
`snap` is closed, a second `closeBubble` on `snap` short-circuits on the closed
check: it issues no remote call, leaves the service state as the first call
left it, and resolves with the same snapshot. -/
theorem closeBubble_again_on_snapshot (rest : Rest) (s s1 : Bubbles) (bubble snap : Bubble)
    (hfirst : closeBubble rest s (some bubble) = (s1, .resolved snap))
    (hclosed : isBubbleClosed (some snap) = .ok true) :
    closeBubble rest (closeBubble rest s (some bubble)).1 (some snap) = (s1, .resolved snap) := by
  rw [hfirst]
  simp only [closeBubble, hclosed]

/-- C8 (witness): closing `r1`, then closing the closed snapshot returned. -/
theorem closeBubble_again_on_snapshot_witness :
    closeBubble (constRest "me" closedRoom)
        (closeBubble (constRest "me" closedRoom) ⟨[openRoom], [], []⟩ (some openRoom)).1
        (some closedRoom)
      = (⟨[closedRoom], [.restUnsubscribeContactFromBubble "a" "r1", .restGetBubble "r1"], []⟩,
          .resolved closedRoom) :=
  closeBubble_again_on_snapshot (constRest "me" closedRoom) ⟨[openRoom], [], []⟩
    ⟨[closedRoom], [.restUnsubscribeContactFromBubble "a" "r1", .restGetBubble "r1"], []⟩
    openRoom closedRoom (by decide) rfl

/-- Assigning at the index found for a predicate on the head's tail: the head
is kept and the assignment happens in the tail. -/
theorem assignIndex_cons_of_not {α : Type} (p : α → Bool) (x : α) (xs : List α) (v : α)
    (hx : p x = false) :
    assignIndex (x :: xs) (findIndex p (x :: xs)) v = x :: assignIndex xs (findIndex p xs) v := by
  simp only [findIndex, hx]
  by_cases hi : findIndex p xs < 0
  · simp [assignIndex, hi]
  · have h0 : 0 ≤ findIndex p xs := not_lt.1 hi
    have h1 : ¬ findIndex p xs + 1 < 0 := by omega
    have h2 : (findIndex p xs + 1).toNat = (findIndex p xs).toNat + 1 := by omega
    simp [assignIndex, hi, h1, h2]

/-- Replacing a stored room by a snapshot with the same id keeps the list of
ids of the local rooms. -/
theorem assignIndex_findIndex_map_id (l : List Bubble) (b : Bubble) :
    (assignIndex l (findIndex (fun bubbleItem => bubbleItem.id == b.id) l) b).map Bubble.id
      = l.map Bubble.id := by
  induction l with
  | nil => simp [findIndex, assignIndex]
  | cons x xs ih =>
    by_cases hx : x.id = b.id
    · simp [findIndex, assignIndex, hx]
    · have hx1 : (fun bubbleItem : Bubble => bubbleItem.id == b.id) x = false := by simpa using hx
      rw [assignIndex_cons_of_not _ x xs b hx1, List.map_cons, ih, List.map_cons]

/-- Every state preserves itself. -/
theorem ClosePreserves.refl (s : Bubbles) : ClosePreserves s s :=
  ⟨⟨[], by simp, by simp⟩, rfl, rfl⟩

/-- Preservation composes along successive steps. -/
theorem ClosePreserves.trans {s s1 s2 : Bubbles} (h1 : ClosePreserves s s1)
    (h2 : ClosePreserves s1 s2) : ClosePreserves s s2 := by
  obtain ⟨⟨a1, hc1, hd1⟩, hb1, hl1⟩ := h1
  obtain ⟨⟨a2, hc2, hd2⟩, hb2, hl2⟩ := h2
  refine ⟨⟨a1 ++ a2, by rw [hc2, hc1, List.append_assoc], ?_⟩, hb2.trans hb1, hl2.trans hl1⟩
  intro bubbleId hmem
  rcases List.mem_append.1 hmem with h | h
  · exact hd1 bubbleId h
  · exact hd2 bubbleId h

/-- Recording a call that is not a remote delete is a preserving step. -/
theorem ClosePreserves.record (s : Bubbles) (e : Effect)
    (he : ∀ bubbleId, e ≠ Effect.restDeleteBubble bubbleId) : ClosePreserves s (s.record e) := by
  refine ⟨⟨[e], rfl, ?_⟩, rfl, rfl⟩
  intro bubbleId hmem
  exact he bubbleId (List.mem_singleton.1 hmem).symm

/-- Storing a snapshot is a preserving step. -/
theorem ClosePreserves.store (s : Bubbles) (b : Bubble) : ClosePreserves s (s.store b) :=
  ⟨⟨[], by simp [store_calls], by simp⟩, assignIndex_findIndex_map_id s.bubbles b, rfl⟩

/-- The method `removeContactFromBubble` is a preserving step. -/
theorem removeContactFromBubble_preserves (rest : Rest) (s : Bubbles) (contact : Contact)
    (bubble : Bubble) :
    ClosePreserves s (removeContactFromBubble rest s (some contact) (some bubble)).1 := by
  rw [removeContactFromBubble_some]
  split
  · have hr := ClosePreserves.record s
      (.restRemoveInvitationOfContactToBubble contact.id bubble.id) (by intro _ h; cases h)
    cases rest.removeInvitationOfContactToBubble s.calls contact.id bubble.id with
    | error err => exact hr
    | ok b => exact hr.trans (ClosePreserves.store _ b)
  · split
    · have hr := ClosePreserves.record s
        (.restUnsubscribeContactFromBubble contact.id bubble.id) (by intro _ h; cases h)
      cases rest.unsubscribeContactFromBubble s.calls contact.id bubble.id with
      | error err => exact hr
      | ok b => exact hr.trans (ClosePreserves.store _ b)
    · exact ClosePreserves.refl s

/-- The serial unsubscribe loop is a preserving step. -/
theorem unsubscribeParticipants_preserves (rest : Rest) (bubble : Bubble) (queue : List String)
    (s : Bubbles) : ClosePreserves s (unsubscribeParticipants rest bubble queue s).1 := by
  induction queue generalizing s with
  | nil => exact ClosePreserves.refl s
  | cons participantID participantsIDList ih =>
    have hstep := removeContactFromBubble_preserves rest s ⟨participantID⟩ bubble
    unfold unsubscribeParticipants
    split
    · split
      · rename_i s1 _ heq
        rw [heq] at hstep
        exact hstep.trans (ih s1)
      · rename_i s1 _ heq
        rw [heq] at hstep
        exact hstep
      · rename_i s1 heq
        rw [heq] at hstep
        exact hstep
    · exact ClosePreserves.refl s

/-- The method `closeBubble` is a preserving step: it never issues a remote
delete and never changes the ids of the local rooms. -/
theorem closeBubble_preserves (rest : Rest) (s : Bubbles) (bubble : Bubble) :
    ClosePreserves s (closeBubble rest s (some bubble)).1 := by
  have hloop := unsubscribeParticipants_preserves rest bubble (closeQueue rest bubble) s
  simp only [closeBubble]
  split
  · exact ClosePreserves.refl s
  · exact ClosePreserves.refl s
  · split
    · rename_i s1 _ heq
      rw [heq] at hloop
      have hr := ClosePreserves.record s1 (.restGetBubble bubble.id) (by intro _ h; cases h)
      cases rest.getBubble s1.calls bubble.id with
      | error err => exact hloop.trans hr
      | ok b => exact hloop.trans (hr.trans (ClosePreserves.store _ b))
    · rename_i s1 _ heq
      rw [heq] at hloop
      exact hloop
    · rename_i s1 heq
      rw [heq] at hloop
      exact hloop

/-- C9: for a non-null room, if the close step of `deleteBubble` rejects with
`e`, then `deleteBubble` rejects with `e` and does nothing beyond what close
did: the calls made contain no remote delete and the local rooms keep their
ids, in order, so none was removed.  Whenever a remote delete appears among
the calls `deleteBubble` made, close had resolved with some snapshot, the
delete is on that snapshot's id, and it comes after every call of close.  And
whenever close resolves with a snapshot, the remote delete is issued, once, on
that snapshot's id, right after the calls of close: if it fails with `e`,
`deleteBubble` rejects with `e` and the local rooms are those close left; if it
succeeds, `deleteBubble` resolves with `OK`. -/
theorem deleteBubble_close_first (rest : Rest) (s : Bubbles) (bubble : Bubble) :
    (∀ e, (closeBubble rest s (some bubble)).2 = .rejected e →
      deleteBubble rest s (some bubble) = ((closeBubble rest s (some bubble)).1, .rejected e) ∧
      (∃ added, (deleteBubble rest s (some bubble)).1.calls = s.calls ++ added ∧
        ∀ bubbleId, Effect.restDeleteBubble bubbleId ∉ added) ∧
      (deleteBubble rest s (some bubble)).1.bubbles.map Bubble.id = s.bubbles.map Bubble.id) ∧
    (∀ added, (deleteBubble rest s (some bubble)).1.calls = s.calls ++ added →
      ∀ bubbleId, Effect.restDeleteBubble bubbleId ∈ added →
        ∃ updatedBubble, (closeBubble rest s (some bubble)).2 = .resolved updatedBubble ∧
          bubbleId = updatedBubble.id ∧
          (deleteBubble rest s (some bubble)).1.calls =
            (closeBubble rest s (some bubble)).1.calls ++ [.restDeleteBubble updatedBubble.id]) ∧
    (∀ updatedBubble, (closeBubble rest s (some bubble)).2 = .resolved updatedBubble →
      (deleteBubble rest s (some bubble)).1.calls =
        (closeBubble rest s (some bubble)).1.calls ++ [.restDeleteBubble updatedBubble.id] ∧
      (∀ e, rest.deleteBubble (closeBubble rest s (some bubble)).1.calls updatedBubble.id
          = .error e →
        (deleteBubble rest s (some bubble)).2 = .rejected (.REMOTE_FAILURE e) ∧
        (deleteBubble rest s (some bubble)).1.bubbles
          = (closeBubble rest s (some bubble)).1.bubbles) ∧
      (rest.deleteBubble (closeBubble rest s (some bubble)).1.calls updatedBubble.id = .ok () →
        (deleteBubble rest s (some bubble)).2 = .resolved .OK)) := by
  have hpres := closeBubble_preserves rest s bubble
  rcases hclose : closeBubble rest s (some bubble) with ⟨s1, outcome⟩
  rw [hclose] at hpres
  obtain ⟨⟨a1, hcalls, hnodelete⟩, hids, -⟩ := hpres
  cases outcome with
  | rejected err =>
    have hdel : deleteBubble rest s (some bubble) = (s1, .rejected err) := by
      simp only [deleteBubble, hclose]
    rw [hdel]
    refine ⟨?_, ?_, ?_⟩
    · intro e he
      cases he
      exact ⟨rfl, ⟨a1, hcalls, hnodelete⟩, hids⟩
    · intro added hadded bubbleId hmem
      have : added = a1 := List.append_cancel_left (hadded.symm.trans hcalls)
      exact absurd (this ▸ hmem) (hnodelete bubbleId)
    · intro updatedBubble hu
      cases hu
  | pending =>
    have hdel : deleteBubble rest s (some bubble) = (s1, .pending) := by
      simp only [deleteBubble, hclose]
    rw [hdel]
    refine ⟨?_, ?_, ?_⟩
    · intro e he
      cases he
    · intro added hadded bubbleId hmem
      have : added = a1 := List.append_cancel_left (hadded.symm.trans hcalls)
      exact absurd (this ▸ hmem) (hnodelete bubbleId)
    · intro updatedBubble hu
      cases hu
  | resolved updatedBubble =>
    have hdel : (deleteBubble rest s (some bubble)).1.calls
        = s1.calls ++ [.restDeleteBubble updatedBubble.id] := by
      simp only [deleteBubble, hclose]
      cases rest.deleteBubble s1.calls updatedBubble.id <;> rfl
    refine ⟨?_, ?_, ?_⟩
    · intro e he
      cases he
    · intro added hadded bubbleId hmem
      refine ⟨updatedBubble, rfl, ?_, hdel⟩
      have hcat : s.calls ++ added = s.calls ++ (a1 ++ [.restDeleteBubble updatedBubble.id]) := by
        rw [← hadded, hdel, hcalls, List.append_assoc]
      have hadd : added = a1 ++ [.restDeleteBubble updatedBubble.id] :=
        List.append_cancel_left hcat
      rw [hadd] at hmem
      rcases List.mem_append.1 hmem with h | h
      · exact absurd h (hnodelete bubbleId)
      · have := List.mem_singleton.1 h
        cases this
        rfl
    · intro u hu
      cases hu
      refine ⟨hdel, ?_, ?_⟩
      · intro e he
        simp only at he
        simp [deleteBubble, hclose, he, Bubbles.record]
      · intro he
        simp only at he
        simp only [deleteBubble, hclose, he]

/-- C9 (witness): on a backend that is down, removing member `a` fails and
close of the open room `r1` rejects; `deleteBubble` rejects with the same
error, makes no remote delete and keeps the local room.  On a working backend
close resolves with the snapshot `r1` and the remote delete is issued on `r1`
right after the calls of close. -/
theorem deleteBubble_close_first_witness :
    (closeBubble (failRest "me" "down") ⟨[openRoom], [], []⟩ (some openRoom)).2
      = .rejected (.REMOTE_FAILURE "down") ∧
    deleteBubble (failRest "me" "down") ⟨[openRoom], [], []⟩ (some openRoom)
      = (⟨[openRoom], [.restUnsubscribeContactFromBubble "a" "r1"], []⟩,
          .rejected (.REMOTE_FAILURE "down")) ∧
    (deleteBubble (constRest "me" closedRoom) ⟨[openRoom], [], []⟩ (some openRoom)).1.calls
      = [.restUnsubscribeContactFromBubble "a" "r1", .restGetBubble "r1",
         .restDeleteBubble "r1"] ∧
    (deleteBubble (constRest "me" closedRoom) ⟨[openRoom], [], []⟩ (some openRoom)).2
      = .resolved .OK := by
  have h := ((deleteBubble_close_first (failRest "me" "down") ⟨[openRoom], [], []⟩ openRoom).1
    (.REMOTE_FAILURE "down") (by decide)).1
  have hok := (deleteBubble_close_first (constRest "me" closedRoom) ⟨[openRoom], [], []⟩
    openRoom).2.2 closedRoom (by decide)
  exact ⟨by decide, h.trans (by decide), hok.1.trans (by decide), hok.2.2 rfl⟩

/-- C10 (failing input): the local array holds the single room `a`; the closed
room `r1`, which is not in the array, is deleted and the remote delete
succeeds.  `findIndex` answers `-1`, `splice(-1, 1)` removes the last element,
and the unrelated room `a` is gone from the local array. -/
theorem deleteBubble_absent_room_drops_last :
    deleteBubble (constRest "me" closedRoom) ⟨[mkBubble "a" []], [], []⟩ (some closedRoom)
      = (⟨[], [.restDeleteBubble "r1"], []⟩, .resolved .OK) := by
  decide

/-- A failed `findIndex` means no element satisfies the predicate. -/
theorem findIndex_neg_iff {α : Type} (p : α → Bool) (l : List α) :
    findIndex p l < 0 ↔ ∀ x ∈ l, p x = false := by
  induction l with
  | nil => simp [findIndex]
  | cons x xs ih =>
    by_cases hx : p x = true
    · simp [findIndex, hx]
    · have hx1 : p x = false := by simpa using hx
      simp only [findIndex, hx1, List.mem_cons, forall_eq_or_imp, true_and]
      by_cases hi : findIndex p xs < 0
      · simp only [hi, if_true]
        exact ⟨fun _ => ih.1 hi, fun _ => by decide⟩
      · have h0 : 0 ≤ findIndex p xs := not_lt.1 hi
        simp only [hi, if_false, Bool.false_eq_true]
        constructor
        · intro h
          omega
        · intro h
          exact absurd (ih.2 h) hi

/-- A successful `findIndex` points at the first element satisfying the
predicate, and assigning there replaces exactly that element. -/
theorem findIndex_found {α : Type} (p : α → Bool) (l : List α) (h : ¬ findIndex p l < 0) :
    ∃ pre x post, l = pre ++ x :: post ∧ p x = true ∧ (∀ y ∈ pre, p y = false) ∧
      ∀ v, assignIndex l (findIndex p l) v = pre ++ v :: post := by
  induction l with
  | nil => simp [findIndex] at h
  | cons x xs ih =>
    by_cases hx : p x = true
    · refine ⟨[], x, xs, rfl, hx, by simp, ?_⟩
      intro v
      simp [findIndex, hx, assignIndex]
    · have hx1 : p x = false := by simpa using hx
      have hxs : ¬ findIndex p xs < 0 := by
        intro hneg
        apply h
        simp [findIndex, hx1, hneg]
      obtain ⟨pre, y, post, hl, hy, hpre, hassign⟩ := ih hxs
      refine ⟨x :: pre, y, post, by simp [hl], hy, ?_, ?_⟩
      · intro z hz
        rcases List.mem_cons.1 hz with rfl | hz
        · exact hx1
        · exact hpre z hz
      · intro v
        rw [assignIndex_cons_of_not p x xs v hx1, hassign v]
        rfl

/-- In an array split at the first element satisfying `p`, `find?` returns
that element. -/
theorem find?_of_split {α : Type} (p : α → Bool) (pre post : List α) (x : α)
    (hx : p x = true) (hpre : ∀ y ∈ pre, p y = false) :
    (pre ++ x :: post).find? p = some x := by
  induction pre with
  | nil => simp [hx]
  | cons y ys ih =>
    have hy : p y = false := hpre y (List.mem_cons_self _ _)
    simp only [List.cons_append, List.find?_cons, hy]
    exact ih (fun z hz => hpre z (List.mem_cons_of_mem _ hz))

/-- C11 (failing input): the room `r1` is not in the local array (it is
empty); a contact is invited to it, the remote invite and the re-fetch both
succeed with the snapshot `closedRoom`.  The method resolves with the snapshot
but `_bubbles[-1] = bubbleUpdated` stores nothing: the local array is still
empty and `getBubbleById("r1")` returns `undefined`. -/
theorem inviteContactToBubble_unknown_room_not_stored :
    inviteContactToBubble (constRest "me" closedRoom) Bubbles.init (some ⟨"c"⟩) (some openRoom)
        false true none
      = (⟨[], [.restInviteContactToBubble "c" "r1" false true none, .restGetBubble "r1"], []⟩,
          .resolved closedRoom) ∧
    getBubbleById
        (inviteContactToBubble (constRest "me" closedRoom) Bubbles.init (some ⟨"c"⟩) (some openRoom)
          false true none).1 (some "r1")
      = .ok none := by
  constructor
  · decide
  · rfl

/-- C12: `getBubbleById` and `getBubbleByJid` throw `BAD_REQUEST` on a falsy
key.  On a non-empty key they always return: `undefined` when no room of the
local array carries the key, and otherwise the first room that carries it,
the array being split at that room.  Both are functions of the service state
and return no new one. -/
theorem getBubbleById_getBubbleByJid_lookup (s : Bubbles) :
    (∀ key : Option String, truthyArg key = false →
      getBubbleById s key = .error .BAD_REQUEST ∧ getBubbleByJid s key = .error .BAD_REQUEST) ∧
    (∀ key : String, key ≠ "" →
      ((∀ b ∈ s.bubbles, b.id ≠ key) → getBubbleById s (some key) = .ok none) ∧
      (∀ pre b post, s.bubbles = pre ++ b :: post → b.id = key → (∀ x ∈ pre, x.id ≠ key) →
        getBubbleById s (some key) = .ok (some b)) ∧
      ((∀ b ∈ s.bubbles, b.jid ≠ key) → getBubbleByJid s (some key) = .ok none) ∧
      (∀ pre b post, s.bubbles = pre ++ b :: post → b.jid = key → (∀ x ∈ pre, x.jid ≠ key) →
        getBubbleByJid s (some key) = .ok (some b))) := by
  refine ⟨?_, ?_⟩
  · intro key hkey
    simp [getBubbleById, getBubbleByJid, hkey]
  · intro key hkey
    have htruthy : truthyArg (some key) = true := by simp [truthyArg, truthy, hkey]
    refine ⟨?_, ?_, ?_, ?_⟩
    · intro hnone
      have : s.bubbles.find? (fun bubble => some bubble.id == some key) = none := by
        rw [List.find?_eq_none]
        intro b hb
        simpa using hnone b hb
      unfold getBubbleById
      rw [this, htruthy]
      rfl
    · intro pre b post hsplit hb hpre
      have : s.bubbles.find? (fun bubble => some bubble.id == some key) = some b := by
        rw [hsplit]
        apply find?_of_split
        · simpa using hb
        · intro y hy
          simpa using hpre y hy
      unfold getBubbleById
      rw [this, htruthy]
      rfl
    · intro hnone
      have : s.bubbles.find? (fun bubble => some bubble.jid == some key) = none := by
        rw [List.find?_eq_none]
        intro b hb
        simpa using hnone b hb
      unfold getBubbleByJid
      rw [this, htruthy]
      rfl
    · intro pre b post hsplit hb hpre
      have : s.bubbles.find? (fun bubble => some bubble.jid == some key) = some b := by
        rw [hsplit]
        apply find?_of_split
        · simpa using hb
        · intro y hy
          simpa using hpre y hy
      unfold getBubbleByJid
      rw [this, htruthy]
      rfl

/-- C12 (witness): looking up `r1` in an array with two rooms of that id
returns the first one; looking up an unknown id returns `undefined`; an
empty key throws. -/
theorem getBubbleById_getBubbleByJid_lookup_witness :
    getBubbleById ⟨[mkBubble "a" [], openRoom, closedRoom], [], []⟩ (some "r1") = .ok (some openRoom) ∧
    getBubbleByJid ⟨[mkBubble "a" [], openRoom, closedRoom], [], []⟩ (some "zz") = .ok none ∧
    getBubbleById ⟨[mkBubble "a" [], openRoom, closedRoom], [], []⟩ (some "") = .error .BAD_REQUEST :=
  ⟨((getBubbleById_getBubbleByJid_lookup ⟨[mkBubble "a" [], openRoom, closedRoom], [], []⟩).2 "r1"
      (by decide)).2.1 [mkBubble "a" []] openRoom [closedRoom] rfl rfl (by decide),
   ((getBubbleById_getBubbleByJid_lookup ⟨[mkBubble "a" [], openRoom, closedRoom], [], []⟩).2 "zz"
      (by decide)).2.2.1 (by decide),
   ((getBubbleById_getBubbleByJid_lookup ⟨[mkBubble "a" [], openRoom, closedRoom], [], []⟩).1
      (some "") rfl).1⟩

/-- C13: `getAllPendingBubbles` returns exactly the rooms of the local array
that have a membership of the connected user with status `invited`: it is the
array filtered by that condition, hence in the same relative order; a room in
which no membership of the connected user is `invited` is not returned.  It is
a function of the service state and returns no new one. -/
theorem getAllPendingBubbles_eq_filter (rest : Rest) (s : Bubbles) :
    getAllPendingBubbles rest s =
      s.bubbles.filter (fun bubble =>
        decide (∃ user ∈ bubble.users, user.userId = rest.userId ∧ user.status = "invited")) ∧
    (∀ bubble, bubble ∈ getAllPendingBubbles rest s ↔
      bubble ∈ s.bubbles ∧
        ∃ user ∈ bubble.users, user.userId = rest.userId ∧ user.status = "invited") ∧
    (getAllPendingBubbles rest s).Sublist s.bubbles ∧
    (∀ bubble ∈ s.bubbles,
      (∀ user ∈ bubble.users, user.userId = rest.userId → user.status ≠ "invited") →
        bubble ∉ getAllPendingBubbles rest s) := by
  have hpred : ∀ bubble : Bubble,
      (decide ((bubble.users.filter (fun user =>
          user.userId == rest.userId && user.status == "invited")).length > 0)) =
        decide (∃ user ∈ bubble.users, user.userId = rest.userId ∧ user.status = "invited") := by
    intro bubble
    rw [decide_eq_decide, gt_iff_lt, List.length_pos_iff_exists_mem]
    constructor
    · rintro ⟨user, hu⟩
      rw [List.mem_filter] at hu
      exact ⟨user, hu.1, by simpa using hu.2⟩
    · rintro ⟨user, hu, h1, h2⟩
      exact ⟨user, List.mem_filter.2 ⟨hu, by simp [h1, h2]⟩⟩
  have heq : getAllPendingBubbles rest s =
      s.bubbles.filter (fun bubble =>
        decide (∃ user ∈ bubble.users, user.userId = rest.userId ∧ user.status = "invited")) := by
    unfold getAllPendingBubbles
    congr 1
    funext bubble
    exact hpred bubble
  refine ⟨heq, ?_, ?_, ?_⟩
  · intro bubble
    rw [heq, List.mem_filter]
    simp
  · rw [heq]
    exact List.filter_sublist _
  · intro bubble _ hno hmem
    rw [heq, List.mem_filter] at hmem
    obtain ⟨user, hu, h1, h2⟩ := of_decide_eq_true hmem.2
    exact hno user hu h1 h2

/-- C16 (failing input): the room `r1` is in the local array and every remote
call succeeds except the re-fetch `getBubble`, which fails.  The promises of
`inviteContactToBubble`, `closeBubble`, `deleteBubble`,
`acceptInvitationToJoinBubble` and `declineInvitationToJoinBubble` are then
neither resolved nor rejected: they never settle. -/
theorem refetch_failure_never_settles :
    inviteContactToBubble (refetchDownRest "me" closedRoom "down") ⟨[openRoom], [], []⟩
        (some ⟨"c"⟩) (some openRoom) false true none
      = (⟨[openRoom], [.restInviteContactToBubble "c" "r1" false true none, .restGetBubble "r1"], []⟩,
          .pending) ∧
    closeBubble (refetchDownRest "me" closedRoom "down") ⟨[openRoom], [], []⟩ (some openRoom)
      = (⟨[closedRoom], [.restUnsubscribeContactFromBubble "a" "r1", .restGetBubble "r1"], []⟩,
          .pending) ∧
    (deleteBubble (refetchDownRest "me" closedRoom "down") ⟨[openRoom], [], []⟩
        (some openRoom)).2 = .pending ∧
    (acceptInvitationToJoinBubble (refetchDownRest "me" closedRoom "down") ⟨[openRoom], [], []⟩
        (some openRoom)).2 = .returned .pending ∧
    (declineInvitationToJoinBubble (refetchDownRest "me" closedRoom "down") ⟨[openRoom], [], []⟩
        (some openRoom)).2 = .returned .pending := by
  refine ⟨?_, ?_, ?_, ?_, ?_⟩ <;> decide

/-- C17: when the primary remote call of `createBubble`, `leaveBubble`,
`inviteContactToBubble`, `removeContactFromBubble` (either branch),
`acceptInvitationToJoinBubble`, `declineInvitationToJoinBubble` or
`setBubbleCustomData` fails with `e`, the promise is rejected with `e` as the
collaborator gave it, and the service is what it was with that one remote call
added to the log: same local array, no presence signal, no listener; the
bubble passed to `setBubbleCustomData` keeps its custom data. -/
theorem primary_failure_passes_through (rest : Rest) (s : Bubbles) (e : String) :
    (∀ (name description : String) (withHistory : Option Bool), name ≠ "" → description ≠ "" →
      rest.createBubble s.calls name description (withHistory.getD false) = .error e →
      createBubble rest s (some name) (some description) withHistory =
        ({ s with calls := s.calls ++
            [.restCreateBubble name description (withHistory.getD false)] },
          .rejected (.REMOTE_FAILURE e))) ∧
    (∀ bubble : Bubble, hasOtherModerator rest.userId bubble →
      rest.leaveBubble s.calls bubble.id = .error e →
      leaveBubble rest s (some bubble) =
        ({ s with calls := s.calls ++ [.restLeaveBubble bubble.id] },
          .rejected (.REMOTE_FAILURE e))) ∧
    (∀ (contact : Contact) (bubble : Bubble) (isModerator withInvitation : Bool)
        (reason : Option String),
      rest.inviteContactToBubble s.calls contact.id bubble.id isModerator withInvitation reason
        = .error e →
      inviteContactToBubble rest s (some contact) (some bubble) isModerator withInvitation reason =
        ({ s with calls := s.calls ++
            [.restInviteContactToBubble contact.id bubble.id isModerator withInvitation reason] },
          .rejected (.REMOTE_FAILURE e))) ∧
    (∀ (contact : Contact) (bubble : Bubble),
      contactStatus bubble.users contact.id = "invited" →
      rest.removeInvitationOfContactToBubble s.calls contact.id bubble.id = .error e →
      removeContactFromBubble rest s (some contact) (some bubble) =
        ({ s with calls := s.calls ++
            [.restRemoveInvitationOfContactToBubble contact.id bubble.id] },
          .rejected (.REMOTE_FAILURE e))) ∧
    (∀ (contact : Contact) (bubble : Bubble),
      contactStatus bubble.users contact.id = "accepted" →
      rest.unsubscribeContactFromBubble s.calls contact.id bubble.id = .error e →
      removeContactFromBubble rest s (some contact) (some bubble) =
        ({ s with calls := s.calls ++
            [.restUnsubscribeContactFromBubble contact.id bubble.id] },
          .rejected (.REMOTE_FAILURE e))) ∧
    (∀ bubble : Bubble, rest.acceptInvitationToJoinBubble s.calls bubble.id = .error e →
      acceptInvitationToJoinBubble rest s (some bubble) =
        ({ s with calls := s.calls ++ [.restAcceptInvitationToJoinBubble bubble.id] },
          .returned (.rejected (.REMOTE_FAILURE e)))) ∧
    (∀ bubble : Bubble, rest.declineInvitationToJoinBubble s.calls bubble.id = .error e →
      declineInvitationToJoinBubble rest s (some bubble) =
        ({ s with calls := s.calls ++ [.restDeclineInvitationToJoinBubble bubble.id] },
          .returned (.rejected (.REMOTE_FAILURE e)))) ∧
    (∀ (bubble : Bubble) (customData : List (String × String)),
      rest.setBubbleCustomData s.calls bubble.id customData = .error e →
      setBubbleCustomData rest s (some bubble) customData =
        { service := { s with calls := s.calls ++ [.restSetBubbleCustomData bubble.id customData] },
          argument := some bubble,
          call := .returned (.rejected (.REMOTE_FAILURE e)) }) := by
  refine ⟨?_, ?_, ?_, ?_, ?_, ?_, ?_, ?_⟩
  · intro name description withHistory hn hd h
    simp [createBubble, truthyArg, truthy, hn, hd, h, Bubbles.record]
  · intro bubble hother h
    rw [leaveBubble_of_otherModerator rest s bubble hother, h]
  · intro contact bubble isModerator withInvitation reason h
    simp only [inviteContactToBubble, h, Bubbles.record]
  · intro contact bubble hstatus h
    rw [removeContactFromBubble_some, if_pos hstatus, h]
    rfl
  · intro contact bubble hstatus h
    have hne : contactStatus bubble.users contact.id ≠ "invited" := by rw [hstatus]; decide
    rw [removeContactFromBubble_some, if_neg hne, if_pos hstatus, h]
    rfl
  · intro bubble h
    simp only [acceptInvitationToJoinBubble, h, Bubbles.record]
  · intro bubble h
    simp only [declineInvitationToJoinBubble, h, Bubbles.record]
  · intro bubble customData h
    simp only [setBubbleCustomData, h, Bubbles.record]

/-- C17 (witness): the backend is down; setting custom data on `r1` and
accepting its invitation are rejected with the backend's error, and the local
array and the bubble are what they were. -/
theorem primary_failure_passes_through_witness :
    setBubbleCustomData (failRest "me" "down") ⟨[openRoom], [], []⟩ (some openRoom) [("k", "v")]
      = { service := ⟨[openRoom], [.restSetBubbleCustomData "r1" [("k", "v")]], []⟩,
          argument := some openRoom,
          call := .returned (.rejected (.REMOTE_FAILURE "down")) } ∧
    acceptInvitationToJoinBubble (failRest "me" "down") ⟨[openRoom], [], []⟩ (some openRoom)
      = (⟨[openRoom], [.restAcceptInvitationToJoinBubble "r1"], []⟩,
          .returned (.rejected (.REMOTE_FAILURE "down"))) :=
  ⟨(primary_failure_passes_through (failRest "me" "down") ⟨[openRoom], [], []⟩ "down").2.2.2.2.2.2.2
      openRoom [("k", "v")] rfl,
   (primary_failure_passes_through (failRest "me" "down") ⟨[openRoom], [], []⟩ "down").2.2.2.2.2.1
      openRoom rfl⟩

/-- A call built with `new Promise` never throws to the caller. -/
theorem newPromise_raised {α : Type} (run : Executor α) : (newPromise run).raised = none := by
  unfold newPromise
  split <;> rfl

/-- An executor that rejected before it threw yields the rejected promise. -/
theorem newPromise_rejected {α : Type} (err : ErrorCase) (thrown : Option ErrorCase) :
    @newPromise α ⟨.rejected err, thrown⟩ = .returned (.rejected err) := by
  simp [newPromise]

/-- C18 (failing input): each of `createBubble("", "desc")`,
`closeBubble(null)`, `deleteBubble(null)`, `leaveBubble(null)`,
`inviteContactToBubble(null, room)` and `removeContactFromBubble(null, room)`
runs `reject(BAD_REQUEST)` and then `throw` inside the promise executor: the
caller gets a promise rejected with `BAD_REQUEST` and no exception.  The check
of `acceptInvitationToJoinBubble(null)`, written before the promise is
created, does raise `BAD_REQUEST` to the caller, and returns no promise. -/
theorem validation_never_both :
    (createBubbleCall (constRest "me" closedRoom) Bubbles.init (some "") (some "desc") none).2.raised
      = none ∧
    (createBubbleCall (constRest "me" closedRoom) Bubbles.init (some "") (some "desc") none).2.result
      = some (.rejected .BAD_REQUEST) ∧
    (closeBubbleCall (constRest "me" closedRoom) Bubbles.init none).2
      = .returned (.rejected .BAD_REQUEST) ∧
    (deleteBubbleCall (constRest "me" closedRoom) Bubbles.init none).2
      = .returned (.rejected .BAD_REQUEST) ∧
    (leaveBubbleCall (constRest "me" closedRoom) Bubbles.init none).2
      = .returned (.rejected .BAD_REQUEST) ∧
    (inviteContactToBubbleCall (constRest "me" closedRoom) Bubbles.init none (some openRoom)
        false true none).2 = .returned (.rejected .BAD_REQUEST) ∧
    (removeContactFromBubbleCall (constRest "me" closedRoom) Bubbles.init none (some openRoom)).2
      = .returned (.rejected .BAD_REQUEST) ∧
    (acceptInvitationToJoinBubble (constRest "me" closedRoom) Bubbles.init none).2.raised
      = some .BAD_REQUEST ∧
    (acceptInvitationToJoinBubble (constRest "me" closedRoom) Bubbles.init none).2.result
      = none := by
  refine ⟨?_, ?_, ?_, ?_, ?_, ?_, ?_, ?_, ?_⟩ <;> decide

/-- Argument validation as coded: on a missing or empty required argument,
`createBubble`, `closeBubble`, `deleteBubble`, `leaveBubble`,
`inviteContactToBubble` and `removeContactFromBubble` return a promise rejected
with `BAD_REQUEST` and leave the service untouched, and the exception their
executor throws never reaches the caller; `acceptInvitationToJoinBubble`,
`declineInvitationToJoinBubble` and `setBubbleCustomData` raise `BAD_REQUEST`
to the caller, leave the service untouched and return no promise. -/
theorem validation_outcome (rest : Rest) (s : Bubbles) :
    (∀ (name description : Option String) (withHistory : Option Bool),
      (truthyArg name = false ∨ truthyArg description = false →
        createBubbleCall rest s name description withHistory
          = (s, .returned (.rejected .BAD_REQUEST))) ∧
      (createBubbleCall rest s name description withHistory).2.raised = none) ∧
    (closeBubbleCall rest s none = (s, .returned (.rejected .BAD_REQUEST)) ∧
      ∀ bubble, (closeBubbleCall rest s bubble).2.raised = none) ∧
    (deleteBubbleCall rest s none = (s, .returned (.rejected .BAD_REQUEST)) ∧
      ∀ bubble, (deleteBubbleCall rest s bubble).2.raised = none) ∧
    (leaveBubbleCall rest s none = (s, .returned (.rejected .BAD_REQUEST)) ∧
      ∀ bubble, (leaveBubbleCall rest s bubble).2.raised = none) ∧
    (∀ (contact : Option Contact) (bubble : Option Bubble) (isModerator withInvitation : Bool)
        (reason : Option String),
      (contact = none ∨ bubble = none →
        inviteContactToBubbleCall rest s contact bubble isModerator withInvitation reason
          = (s, .returned (.rejected .BAD_REQUEST))) ∧
      (inviteContactToBubbleCall rest s contact bubble isModerator withInvitation reason).2.raised
        = none) ∧
    (∀ (contact : Option Contact) (bubble : Option Bubble),
      (contact = none ∨ bubble = none →
        removeContactFromBubbleCall rest s contact bubble
          = (s, .returned (.rejected .BAD_REQUEST))) ∧
      (removeContactFromBubbleCall rest s contact bubble).2.raised = none) ∧
    acceptInvitationToJoinBubble rest s none = (s, .threw .BAD_REQUEST) ∧
    declineInvitationToJoinBubble rest s none = (s, .threw .BAD_REQUEST) ∧
    (∀ customData, setBubbleCustomData rest s none customData
      = { service := s, argument := none, call := .threw .BAD_REQUEST }) := by
  refine ⟨?_, ⟨?_, ?_⟩, ⟨?_, ?_⟩, ⟨?_, ?_⟩, ?_, ?_, rfl, rfl, fun _ => rfl⟩
  · intro name description withHistory
    refine ⟨?_, newPromise_raised _⟩
    intro h
    simp only [createBubbleCall, createBubble_rejects_falsy rest s name description withHistory h,
      newPromise_rejected]
  · simp only [closeBubbleCall, closeBubble, newPromise_rejected]
  · intro bubble
    exact newPromise_raised _
  · simp only [deleteBubbleCall, deleteBubble, newPromise_rejected]
  · intro bubble
    exact newPromise_raised _
  · simp only [leaveBubbleCall, leaveBubble, newPromise_rejected]
  · intro bubble
    exact newPromise_raised _
  · intro contact bubble isModerator withInvitation reason
    refine ⟨?_, newPromise_raised _⟩
    intro h
    have hrun : inviteContactToBubble rest s contact bubble isModerator withInvitation reason
        = (s, .rejected .BAD_REQUEST) := by
      rcases h with h | h
      · subst h
        simp only [inviteContactToBubble]
      · subst h
        cases contact <;> simp only [inviteContactToBubble]
    simp only [inviteContactToBubbleCall, hrun, newPromise_rejected]
  · intro contact bubble
    refine ⟨?_, newPromise_raised _⟩
    intro h
    have hrun : removeContactFromBubble rest s contact bubble = (s, .rejected .BAD_REQUEST) := by
      rcases h with h | h
      · subst h
        simp only [removeContactFromBubble]
      · subst h
        cases contact <;> simp only [removeContactFromBubble]
    simp only [removeContactFromBubbleCall, hrun, newPromise_rejected]

/-- The queue loop of `closeBubble` appends, to what it has so far, the ids
of the users other than the connected one, in order. -/
theorem foldl_closeQueue (userId : String) (users : List User) (queue : List String) :
    users.foldl
        (fun queue user => if user.userId != userId then queue ++ [user.userId] else queue) queue
      = queue ++ (users.filter (fun user => user.userId != userId)).map User.userId := by
  induction users generalizing queue with
  | nil => simp
  | cons u us ih =>
    rw [List.foldl_cons, ih]
    by_cases hu : u.userId = userId <;> simp [hu]

/-- The queue of `closeBubble` in closed form. -/
theorem closeQueue_eq (rest : Rest) (bubble : Bubble) :
    closeQueue rest bubble =
      (bubble.users.filter (fun user => user.userId != rest.userId)).map User.userId
        ++ [rest.userId] := by
  unfold closeQueue
  rw [foldl_closeQueue]
  simp

/-- The promise of `removeContactFromBubble` always settles. -/
theorem removeContactFromBubble_settles (rest : Rest) (s : Bubbles) (contact : Contact)
    (bubble : Bubble) : (removeContactFromBubble rest s (some contact) (some bubble)).2 ≠ .pending := by
  rw [removeContactFromBubble_some]
  split
  · cases rest.removeInvitationOfContactToBubble s.calls contact.id bubble.id <;> simp
  · split
    · cases rest.unsubscribeContactFromBubble s.calls contact.id bubble.id <;> simp
    · simp

/-- On a queue of non-empty ids the unsubscribe loop either attempts every id,
each removal resolving, and resolves; or it stops at the first removal that is
rejected and rejects with that error. -/
theorem unsubscribe_loop_cases (rest : Rest) (bubble : Bubble) (queue : List String) (s : Bubbles)
    (htruthy : ∀ id ∈ queue, id ≠ "") :
    ((unsubscribeParticipants rest bubble queue s).2 = .resolved () ∧
      (unsubscribeAttempts rest bubble queue s).map Prod.fst = queue ∧
      ∀ a ∈ unsubscribeAttempts rest bubble queue s, ∃ v, a.2 = .resolved v) ∨
    (∃ pre id post e, queue = pre.map Prod.fst ++ id :: post ∧
      unsubscribeAttempts rest bubble queue s = pre ++ [(id, .rejected e)] ∧
      (∀ a ∈ pre, ∃ v, a.2 = .resolved v) ∧
      (unsubscribeParticipants rest bubble queue s).2 = .rejected e) := by
  induction queue generalizing s with
  | nil =>
    left
    simp [unsubscribeParticipants, unsubscribeAttempts]
  | cons id ids ih =>
    have hid : truthy id = true := by
      simpa [truthy] using htruthy id (List.mem_cons_self _ _)
    have hids : ∀ x ∈ ids, x ≠ "" := fun x hx => htruthy x (List.mem_cons_of_mem _ hx)
    have hsettles := removeContactFromBubble_settles rest s ⟨id⟩ bubble
    rcases hrun : removeContactFromBubble rest s (some ⟨id⟩) (some bubble) with ⟨s1, outcome⟩
    rw [hrun] at hsettles
    cases outcome with
    | pending => exact absurd rfl hsettles
    | rejected e =>
      right
      refine ⟨[], id, ids, e, by simp, ?_, by simp, ?_⟩
      · simp only [unsubscribeAttempts, hid, if_true, hrun, List.nil_append]
      · simp only [unsubscribeParticipants, hid, if_true, hrun]
    | resolved v =>
      have hloop : unsubscribeParticipants rest bubble (id :: ids) s
          = unsubscribeParticipants rest bubble ids s1 := by
        simp only [unsubscribeParticipants, hid, if_true, hrun]
      have hatt : unsubscribeAttempts rest bubble (id :: ids) s
          = (id, .resolved v) :: unsubscribeAttempts rest bubble ids s1 := by
        simp only [unsubscribeAttempts, hid, if_true, hrun]
      rw [hloop, hatt]
      rcases ih s1 hids with ⟨h1, h2, h3⟩ | ⟨pre, x, post, e, h1, h2, h3, h4⟩
      · left
        refine ⟨h1, by simp [h2], ?_⟩
        intro a ha
        rcases List.mem_cons.1 ha with rfl | ha
        · exact ⟨v, rfl⟩
        · exact h3 a ha
      · right
        refine ⟨(id, .resolved v) :: pre, x, post, e, by simp [h1], by simp [h2], ?_, h4⟩
        intro a ha
        rcases List.mem_cons.1 ha with rfl | ha
        · exact ⟨v, rfl⟩
        · exact h3 a ha

/-- On a room that is not closed, `closeBubble` runs the unsubscribe loop on
the queue and is rejected whenever the loop is. -/
theorem closeBubble_rejected_of_loop (rest : Rest) (s : Bubbles) (bubble : Bubble) (e : ErrorCase)
    (hopen : isBubbleClosed (some bubble) = .ok false)
    (hloop : (unsubscribeParticipants rest bubble (closeQueue rest bubble) s).2 = .rejected e) :
    (closeBubble rest s (some bubble)).2 = .rejected e := by
  simp only [closeBubble, hopen]
  rcases hrun : unsubscribeParticipants rest bubble (closeQueue rest bubble) s with ⟨s1, outcome⟩
  rw [hrun] at hloop
  cases hloop
  rfl

/-- On a room that is not closed, `closeBubble` is not rejected when the loop
resolved: what is left is the re-fetch, which resolves it or leaves it
unsettled. -/
theorem closeBubble_not_rejected_of_loop (rest : Rest) (s : Bubbles) (bubble : Bubble)
    (hopen : isBubbleClosed (some bubble) = .ok false)
    (hloop : (unsubscribeParticipants rest bubble (closeQueue rest bubble) s).2 = .resolved ()) :
    ∀ e, (closeBubble rest s (some bubble)).2 ≠ .rejected e := by
  intro e
  simp only [closeBubble, hopen]
  rcases hrun : unsubscribeParticipants rest bubble (closeQueue rest bubble) s with ⟨s1, outcome⟩
  rw [hrun] at hloop
  cases hloop
  dsimp only
  split <;> simp

/-- C19 (counterexample): the first member of the open room carries an empty
user id.  The queue is that id, then `b`, then the local user; the loop takes
the empty id for the end of the queue, so no removal is attempted at all — not
for `b`, not for the local user — although no removal failed, and `closeBubble`
goes on to the re-fetch and resolves. -/
theorem closeBubble_blank_id_stops_queue :
    isBubbleClosed (some blankIdRoom) = .ok false ∧
    closeQueue (constRest "me" closedRoom) blankIdRoom = ["", "b", "me"] ∧
    unsubscribeAttempts (constRest "me" closedRoom) blankIdRoom
        (closeQueue (constRest "me" closedRoom) blankIdRoom) ⟨[blankIdRoom], [], []⟩ = [] ∧
    closeBubble (constRest "me" closedRoom) ⟨[blankIdRoom], [], []⟩ (some blankIdRoom)
      = (⟨[closedRoom], [.restGetBubble "r1"], []⟩, .resolved closedRoom) := by
  refine ⟨rfl, ?_, ?_, ?_⟩ <;> decide

/-- C19 (amended): for a room that is not closed and in which every user id,
and the local user's id, is a non-empty string, the queue of `closeBubble` is
the ids of the memberships whose user id differs from the local user's, in the
order of `room.users`, followed by the local user's id, which occurs nowhere
else in it; every membership's id is in the queue.  The removals are attempted
one after the other along the queue: either every id of the queue is attempted
and every removal resolved, and then close is not rejected; or the attempts
stop at the first removal that is rejected, all earlier ones having resolved,
and close is rejected with that error. -/
theorem closeBubble_removal_sequence (rest : Rest) (s : Bubbles) (bubble : Bubble)
    (hopen : isBubbleClosed (some bubble) = .ok false)
    (hids : ∀ user ∈ bubble.users, user.userId ≠ "") (hlocal : rest.userId ≠ "") :
    closeQueue rest bubble =
      (bubble.users.filter (fun user => user.userId != rest.userId)).map User.userId
        ++ [rest.userId] ∧
    rest.userId ∉ (bubble.users.filter (fun user => user.userId != rest.userId)).map User.userId ∧
    (∀ user ∈ bubble.users, user.userId ∈ closeQueue rest bubble) ∧
    (((unsubscribeAttempts rest bubble (closeQueue rest bubble) s).map Prod.fst
          = closeQueue rest bubble ∧
        (∀ a ∈ unsubscribeAttempts rest bubble (closeQueue rest bubble) s, ∃ v, a.2 = .resolved v) ∧
        ∀ e, (closeBubble rest s (some bubble)).2 ≠ .rejected e) ∨
      (∃ pre id post e, closeQueue rest bubble = pre.map Prod.fst ++ id :: post ∧
        unsubscribeAttempts rest bubble (closeQueue rest bubble) s = pre ++ [(id, .rejected e)] ∧
        (∀ a ∈ pre, ∃ v, a.2 = .resolved v) ∧
        (closeBubble rest s (some bubble)).2 = .rejected e)) := by
  have hq := closeQueue_eq rest bubble
  have htruthy : ∀ id ∈ closeQueue rest bubble, id ≠ "" := by
    intro id hid
    rw [hq, List.mem_append, List.mem_map] at hid
    rcases hid with ⟨user, hu, rfl⟩ | hid
    · exact hids user (List.mem_filter.1 hu).1
    · rw [List.mem_singleton.1 hid]
      exact hlocal
  refine ⟨hq, ?_, ?_, ?_⟩
  · rw [List.mem_map]
    rintro ⟨user, hu, heq⟩
    have := (List.mem_filter.1 hu).2
    simp [heq] at this
  · intro user hu
    rw [hq, List.mem_append, List.mem_map]
    by_cases h : user.userId = rest.userId
    · right
      simp [h]
    · left
      exact ⟨user, List.mem_filter.2 ⟨hu, by simpa using h⟩, rfl⟩
  · rcases unsubscribe_loop_cases rest bubble (closeQueue rest bubble) s htruthy with
      ⟨h1, h2, h3⟩ | ⟨pre, id, post, e, h1, h2, h3, h4⟩
    · left
      exact ⟨h2, h3, closeBubble_not_rejected_of_loop rest s bubble hopen h1⟩
    · right
      exact ⟨pre, id, post, e, h1, h2, h3, closeBubble_rejected_of_loop rest s bubble e hopen h4⟩

/-- C19 (witness): the room `r1` with members `a`, the local user `me` and
`b`; the queue is `a`, `b`, `me`.  On a working backend all three are
attempted; on a backend that is down the sequence stops at `a`. -/
theorem closeBubble_removal_sequence_witness :
    closeQueue (constRest "me" closedRoom) teamRoom = ["a", "b", "me"] ∧
    (unsubscribeAttempts (constRest "me" closedRoom) teamRoom ["a", "b", "me"]
        ⟨[teamRoom], [], []⟩).map Prod.fst = ["a", "b", "me"] ∧
    unsubscribeAttempts (failRest "me" "down") teamRoom ["a", "b", "me"] ⟨[teamRoom], [], []⟩
      = [("a", .rejected (.REMOTE_FAILURE "down"))] :=
  ⟨(closeBubble_removal_sequence (constRest "me" closedRoom) ⟨[teamRoom], [], []⟩ teamRoom rfl
      (by decide) (by decide)).1.trans (by decide),
   by decide, by decide⟩

/-- The store step shared by the three event handlers is an upsert. -/
theorem upsert_spec (before : List Bubble) (snap : Bubble) :
    Upserted before snap
      (if findIndex (fun bubbleItem => bubbleItem.id == snap.id) before > -1 then
        assignIndex before (findIndex (fun bubbleItem => bubbleItem.id == snap.id) before) snap
      else before ++ [snap]) := by
  by_cases hneg : findIndex (fun bubbleItem : Bubble => bubbleItem.id == snap.id) before < 0
  · have hnone := (findIndex_neg_iff _ before).1 hneg
    have hgt : ¬ findIndex (fun bubbleItem : Bubble => bubbleItem.id == snap.id) before > -1 := by
      omega
    rw [if_neg hgt]
    refine ⟨?_, ?_, by simp⟩
    · rintro ⟨x, hx, hid⟩
      have := hnone x hx
      simp [hid] at this
    · intro _
      exact ⟨rfl, by simp⟩
  · have hgt : findIndex (fun bubbleItem : Bubble => bubbleItem.id == snap.id) before > -1 := by
      omega
    rw [if_pos hgt]
    obtain ⟨pre, old, post, hsplit, hold, hpre, hassign⟩ := findIndex_found _ before hneg
    rw [hassign snap]
    refine ⟨?_, ?_, by simp⟩
    · intro _
      refine ⟨pre, old, post, hsplit, by simpa using hold, ?_, rfl, by simp [hsplit]⟩
      intro y hy
      simpa using hpre y hy
    · intro hall
      have hmem : old ∈ before := by simp [hsplit]
      exact absurd (by simpa using hold) (hall old hmem)

/-- The local array after each of the three handlers is the upsert of the
fetched snapshot. -/
theorem handlers_keep (rest : Rest) (s : Bubbles) (snap : Bubble) :
    (∀ invitation : Invitation, rest.getBubble s.calls invitation.bubbleId = .ok snap →
      Upserted s.bubbles snap (_onInvitationReceived rest s invitation).bubbles) ∧
    (∀ affiliation : Affiliation, rest.getBubble s.calls affiliation.bubbleId = .ok snap →
      Upserted s.bubbles snap (_onAffiliationChanged rest s affiliation).bubbles) ∧
    (∀ affiliation : Affiliation, rest.getBubble s.calls affiliation.bubbleId = .ok snap →
      Upserted s.bubbles snap (_onOwnAffiliationChanged rest s affiliation).bubbles) := by
  have hup := upsert_spec s.bubbles snap
  refine ⟨?_, ?_, ?_⟩
  · intro invitation hget
    simp only [_onInvitationReceived, hget, Bubbles.record]
    split
    · rename_i hgt
      rw [if_pos hgt] at hup
      exact hup
    · rename_i hgt
      rw [if_neg hgt] at hup
      exact hup
  · intro affiliation hget
    simp only [_onAffiliationChanged, hget, Bubbles.record]
    split
    · rename_i hgt
      rw [if_pos hgt] at hup
      exact hup
    · rename_i hgt
      rw [if_neg hgt] at hup
      exact hup
  · intro affiliation hget
    simp only [_onOwnAffiliationChanged, hget, Bubbles.record]
    split
    · rename_i hgt
      rw [if_pos hgt] at hup
      split <;> exact hup
    · rename_i hgt
      rw [if_neg hgt] at hup
      exact hup

/-- C20: for each of `_onInvitationReceived`, `_onAffiliationChanged` and
`_onOwnAffiliationChanged`, when the re-fetch succeeds with snapshot `snap`:
if the local array holds a room with the snapshot's id, the first such room is
replaced by `snap`, the length and every other entry being unchanged; otherwise
`snap` is appended and the length grows by one; in both cases the array then
contains `snap`.  The log gains the re-fetch first and, last, exactly one
details event carrying `snap`; only `_onOwnAffiliationChanged` puts an initial
presence in between. -/
theorem handlers_upsert (rest : Rest) (s : Bubbles) (snap : Bubble) :
    (∀ invitation : Invitation, rest.getBubble s.calls invitation.bubbleId = .ok snap →
      Upserted s.bubbles snap (_onInvitationReceived rest s invitation).bubbles ∧
      (_onInvitationReceived rest s invitation).calls = s.calls ++
        [.restGetBubble invitation.bubbleId,
         .eventEmitterEmit "rainbow_invitationdetailsreceived" snap]) ∧
    (∀ affiliation : Affiliation, rest.getBubble s.calls affiliation.bubbleId = .ok snap →
      Upserted s.bubbles snap (_onAffiliationChanged rest s affiliation).bubbles ∧
      (_onAffiliationChanged rest s affiliation).calls = s.calls ++
        [.restGetBubble affiliation.bubbleId,
         .eventEmitterEmit "rainbow_affiliationdetailschanged" snap]) ∧
    (∀ affiliation : Affiliation, rest.getBubble s.calls affiliation.bubbleId = .ok snap →
      Upserted s.bubbles snap (_onOwnAffiliationChanged rest s affiliation).bubbles ∧
      ∃ presence, presence.Sublist [Effect.xmppSendInitialBubblePresence snap.jid] ∧
        (_onOwnAffiliationChanged rest s affiliation).calls = s.calls ++
          [.restGetBubble affiliation.bubbleId] ++ presence ++
          [.eventEmitterEmit "rainbow_ownaffiliationdetailschanged" snap]) := by
  have hup := upsert_spec s.bubbles snap
  refine ⟨?_, ?_, ?_⟩
  · intro invitation hget
    simp only [_onInvitationReceived, hget, Bubbles.record]
    split
    · rename_i hgt
      rw [if_pos hgt] at hup
      exact ⟨hup, by simp⟩
    · rename_i hgt
      rw [if_neg hgt] at hup
      exact ⟨hup, by simp⟩
  · intro affiliation hget
    simp only [_onAffiliationChanged, hget, Bubbles.record]
    split
    · rename_i hgt
      rw [if_pos hgt] at hup
      exact ⟨hup, by simp⟩
    · rename_i hgt
      rw [if_neg hgt] at hup
      exact ⟨hup, by simp⟩
  · intro affiliation hget
    simp only [_onOwnAffiliationChanged, hget, Bubbles.record]
    split
    · rename_i hgt
      rw [if_pos hgt] at hup
      split
      · exact ⟨hup, [.xmppSendInitialBubblePresence snap.jid], List.Sublist.refl _, by simp⟩
      · exact ⟨hup, [], by simp, by simp⟩
    · rename_i hgt
      rw [if_neg hgt] at hup
      exact ⟨hup, [.xmppSendInitialBubblePresence snap.jid], List.Sublist.refl _, by simp⟩

/-- C20 (witness): an `affiliationChanged` event for room `r1` arrives while
the local array holds only room `a`; afterwards the array is `a` followed by
the fetched `r1`, and one details event carrying it was emitted. -/
theorem handlers_upsert_witness :
    _onAffiliationChanged (constRest "me" openRoom) ⟨[mkBubble "a" []], [], []⟩ ⟨"r1", "accepted"⟩
      = ⟨[mkBubble "a" [], openRoom],
         [.restGetBubble "r1", .eventEmitterEmit "rainbow_affiliationdetailschanged" openRoom], []⟩ ∧
    openRoom ∈
      (_onAffiliationChanged (constRest "me" openRoom) ⟨[mkBubble "a" []], [], []⟩
        ⟨"r1", "accepted"⟩).bubbles :=
  ⟨by decide,
   ((handlers_upsert (constRest "me" openRoom) ⟨[mkBubble "a" []], [], []⟩ openRoom).2.1
      ⟨"r1", "accepted"⟩ rfl).1.2.2⟩

/-- A chain all of whose steps succeed issues every step, in order. -/
theorem runChain_all_ok (steps : List (CoreEvent × Except String Unit)) (log : List CoreEvent)
    (h : ∀ step ∈ steps, step.2 = .ok ()) :
    runChain steps log = (log ++ steps.map Prod.fst, none) := by
  induction steps generalizing log with
  | nil => simp [runChain]
  | cons step steps ih =>
    obtain ⟨event, result⟩ := step
    have hres : result = .ok () := h (event, result) (List.mem_cons_self _ _)
    subst hres
    rw [runChain, ih _ (fun st hst => h st (List.mem_cons_of_mem _ hst))]
    simp

/-- A chain stops at its first failing step: the steps before it and the
failing step itself are issued, nothing after it. -/
theorem runChain_first_failure (pre post : List (CoreEvent × Except String Unit))
    (step : CoreEvent × Except String Unit) (log : List CoreEvent) (e : String)
    (hpre : ∀ st ∈ pre, st.2 = .ok ()) (hstep : step.2 = .error e) :
    runChain (pre ++ step :: post) log = (log ++ (pre ++ [step]).map Prod.fst, some e) := by
  induction pre generalizing log with
  | nil =>
    obtain ⟨event, result⟩ := step
    simp only at hstep
    subst hstep
    simp [runChain]
  | cons st pre ih =>
    obtain ⟨event, result⟩ := st
    have hres : result = .ok () := hpre (event, result) (List.mem_cons_self _ _)
    subst hres
    rw [List.cons_append, runChain, ih _ (fun x hx => hpre x (List.mem_cons_of_mem _ hx))]
    simp

/-- Either every step of a chain succeeds or there is a first failing one. -/
theorem chain_cases (steps : List (CoreEvent × Except String Unit)) :
    (∀ step ∈ steps, step.2 = .ok ()) ∨
    ∃ pre step post e, steps = pre ++ step :: post ∧ (∀ st ∈ pre, st.2 = .ok ()) ∧
      step.2 = .error e := by
  induction steps with
  | nil => left; simp
  | cons st steps ih =>
    obtain ⟨event, result⟩ := st
    cases result with
    | error e => exact Or.inr ⟨[], (event, .error e), steps, e, rfl, by simp, rfl⟩
    | ok v =>
      rcases ih with h | ⟨pre, step, post, e, h1, h2, h3⟩
      · left
        intro x hx
        rcases List.mem_cons.1 hx with rfl | hx
        · rfl
        · exact h x hx
      · right
        refine ⟨(event, .ok v) :: pre, step, post, e, by simp [h1], ?_, h3⟩
        intro x hx
        rcases List.mem_cons.1 hx with rfl | hx
        · rfl
        · exact h2 x hx

/-- With credentials, `start()` is the chain `startChain` followed, when the
chain went through, by the transition to `STARTED`. -/
theorem start_eq_runChain (env : CoreEnv) (c : Core) (h : env.hasCredentials = true) :
    Core.start env c =
      match runChain (startChain env) c.log with
      | (log, none) =>
        ({ c with state := .STARTED, log := log ++ [.transitTo .STARTED] }, .resolved ())
      | (log, some e) => ({ c with log := log }, .rejected e) := by
  unfold Core.start startChain
  simp only [h, Bool.not_true, Bool.false_eq_true, if_false]
  cases h0 : env.stateManagerStart with
  | error err => simp [runChain, Core.record, discard]
  | ok v =>
    try dsimp only
    cases h1 : env.httpStart with
    | error err => simp [runChain, Core.record, discard]
    | ok v =>
      try dsimp only
      cases h2 : env.cpaasStart with
      | error err => simp [runChain, Core.record, discard]
      | ok v =>
        try dsimp only
        cases h3 : env.restStart v with
        | error err => simp [runChain, Core.record, discard]
        | ok v =>
          try dsimp only
          cases h4 : env.xmppStart env.useXMPP with
          | error err => simp [runChain, Core.record, discard]
          | ok v =>
            try dsimp only
            cases h5 : env.imStart with
            | error err => simp [runChain, Core.record, discard]
            | ok v =>
              try dsimp only
              cases h6 : env.presenceStart with
              | error err => simp [runChain, Core.record, discard]
              | ok v =>
                try dsimp only
                cases h7 : env.contactsStart with
                | error err => simp [runChain, Core.record, discard]
                | ok v =>
                  try dsimp only
                  cases h8 : env.bubblesStart with
                  | error err => simp [runChain, Core.record, discard]
                  | ok v =>
                    try dsimp only
                    cases h9 : env.adminStart with
                    | error err => simp [runChain, Core.record, discard]
                    | ok v =>
                      try dsimp only
                      cases h10 : env.fileServerStart with
                      | error err => simp [runChain, Core.record, discard]
                      | ok v =>
                        try dsimp only
                        simp [runChain, Core.record, Core.transitTo, discard]

/-- The closure `_retrieveInformation()` is the chain `resyncChain`; it leaves
the state alone and, when the chain went through, stores the bots' jids. -/
theorem retrieveInformation_eq_runChain (env : CoreEnv) (c : Core) :
    Core._retrieveInformation env c =
      match runChain (resyncChain env) c.log with
      | (log, none) =>
        ({ c with log := log,
                  botsjid := match env.getBots with
                    | .ok bots => bots.getD []
                    | .error _ => c.botsjid }, .resolved ())
      | (log, some e) => ({ c with log := log }, .rejected e) := by
  unfold Core._retrieveInformation resyncChain
  cases h0 : env.getRosters with
  | error err => simp [runChain, Core.record, discard]
  | ok v =>
    try dsimp only
    cases h1 : env.getBubbles with
    | error err => simp [runChain, Core.record, discard]
    | ok v =>
      try dsimp only
      cases h2 : env.sendInitialPresence with
      | error err => simp [runChain, Core.record, discard]
      | ok v =>
        try dsimp only
        cases h3 : env.enableCarbon with
        | error err => simp [runChain, Core.record, discard]
        | ok v =>
          try dsimp only
          cases h4 : env.getBots with
          | error err => simp [runChain, Core.record, discard]
          | ok v =>
            try dsimp only
            simp [runChain, Core.record, discard]

/-- The method `signin` case by case: REST sign-in fails, XMPP sign-in fails,
CLI mode, and outside CLI mode the re-synchronization chain. -/
theorem signin_eq (env : CoreEnv) (c : Core) (forceStopXMPP : Bool) :
    Core.signin env c forceStopXMPP =
      match env.restSignin with
      | .error e =>
        ({ c with log := c.log ++ stopEvents forceStopXMPP ++ [.restSignin] }, .rejected e)
      | .ok json =>
        match env.xmppSignin with
        | .error e =>
          ({ c with log := c.log ++ stopEvents forceStopXMPP ++ [.restSignin, .xmppSignin] },
            .rejected e)
        | .ok _ =>
          if env.useCLIMode then
            ({ c with state := .READY,
                      log := c.log ++ stopEvents forceStopXMPP ++
                        [.restSignin, .xmppSignin, .transitTo .CONNECTED, .transitTo .READY] },
              .resolved none)
          else
            match runChain (resyncChain env) (c.log ++ stopEvents forceStopXMPP ++ connectedEvents) with
            | (log, none) =>
              ({ state := .READY, log := log ++ [.transitTo .READY],
                 botsjid := match env.getBots with
                   | .ok bots => bots.getD []
                   | .error _ => c.botsjid }, .resolved (some json))
            | (log, some e) => ({ c with state := .CONNECTED, log := log }, .rejected e) := by
  unfold Core.signin Core._signin
  cases hrest : env.restSignin with
  | error e => cases forceStopXMPP <;> simp [stopEvents, Core.record]
  | ok json =>
    cases hxmpp : env.xmppSignin with
    | error e => cases forceStopXMPP <;> simp [stopEvents, Core.record]
    | ok v =>
      cases hcli : env.useCLIMode with
      | true =>
        cases forceStopXMPP <;>
          simp [stopEvents, Core.record, Core._tokenSurvey, Core.transitTo, hcli]
      | false =>
        simp only [retrieveInformation_eq_runChain]
        have hc2 : (Core._tokenSurvey env
              (((if forceStopXMPP = true then c.record .xmppStop else c).record .restSignin).record
                .xmppSignin)).transitTo .CONNECTED
            = { state := .CONNECTED, log := c.log ++ stopEvents forceStopXMPP ++ connectedEvents,
                botsjid := c.botsjid } := by
          cases forceStopXMPP <;>
            simp [stopEvents, connectedEvents, Core.record, Core._tokenSurvey, Core.transitTo, hcli]
        rw [hc2, if_neg (by decide), if_neg (by decide)]
        rcases runChain (resyncChain env) (c.log ++ stopEvents forceStopXMPP ++ connectedEvents) with
          ⟨log, _ | e⟩ <;> simp [Core.transitTo]

/-- No step of `start()` is a state transition. -/
theorem startChain_no_transit (env : CoreEnv) (pre post : List (CoreEvent × Except String Unit))
    (step : CoreEvent × Except String Unit) (h : startChain env = pre ++ step :: post)
    (state : SessionState) : CoreEvent.transitTo state ∉ (pre ++ [step]).map Prod.fst := by
  intro hmem
  have hsub : CoreEvent.transitTo state ∈ (startChain env).map Prod.fst := by
    rw [h]
    simp only [List.map_append, List.map_cons, List.map_nil, List.mem_append, List.mem_cons,
      List.mem_singleton, List.mem_map] at hmem ⊢
    rcases hmem with hmem | hmem
    · exact Or.inl hmem
    · rcases hmem with hmem | hmem
      · exact Or.inr (Or.inl hmem)
      · exact absurd hmem (List.not_mem_nil _)
  simp [startChain] at hsub

/-- C14: `start()` is all-or-nothing.  The chain is, in this order: state
manager, HTTP, CPaaS, REST, XMPP, IM, presence, contacts, bubbles, admin, file
server.  Without credentials `start()` rejects with the configuration message
and the orchestrator is untouched: nothing started, no transition.  With
credentials, when every step succeeds all eleven are started in order, then the
transition to `STARTED` is made and `start()` resolves; when a step fails, the
steps before it and that step are the only ones started, `start()` rejects with
that step's error and no transition is made.  So the transition to `STARTED`
happens, and `start()` resolves, if and only if there are credentials and
every step succeeded. -/
theorem start_all_or_nothing (env : CoreEnv) (c : Core) :
    (startChain env).map Prod.fst =
      [.start .stateManager, .start .http, .start .cpaas, .start .rest, .start .xmpp,
       .start .im, .start .presence, .start .contacts, .start .bubbles, .start .admin,
       .start .fileServer] ∧
    (env.hasCredentials = false →
      Core.start env c = (c, .rejected "Credentials are missing. Check your configuration!")) ∧
    (env.hasCredentials = true → (∀ step ∈ startChain env, step.2 = .ok ()) →
      Core.start env c =
        ({ c with state := .STARTED,
                  log := c.log ++ (startChain env).map Prod.fst ++ [.transitTo .STARTED] },
          .resolved ())) ∧
    (env.hasCredentials = true → ∀ pre step post e, startChain env = pre ++ step :: post →
      (∀ st ∈ pre, st.2 = .ok ()) → step.2 = .error e →
      Core.start env c =
        ({ c with log := c.log ++ (pre ++ [step]).map Prod.fst }, .rejected e)) ∧
    (∀ added, (Core.start env c).1.log = c.log ++ added →
      ((CoreEvent.transitTo .STARTED ∈ added ↔
          env.hasCredentials = true ∧ ∀ step ∈ startChain env, step.2 = .ok ()) ∧
        ((Core.start env c).2 = .resolved () ↔
          env.hasCredentials = true ∧ ∀ step ∈ startChain env, step.2 = .ok ()))) := by
  have hnocred : env.hasCredentials = false →
      Core.start env c = (c, .rejected "Credentials are missing. Check your configuration!") := by
    intro h
    simp [Core.start, h]
  have hall : env.hasCredentials = true → (∀ step ∈ startChain env, step.2 = .ok ()) →
      Core.start env c =
        ({ c with state := .STARTED,
                  log := c.log ++ (startChain env).map Prod.fst ++ [.transitTo .STARTED] },
          .resolved ()) := by
    intro h hok
    rw [start_eq_runChain env c h, runChain_all_ok _ _ hok]
  have hfail : env.hasCredentials = true → ∀ pre step post e, startChain env = pre ++ step :: post →
      (∀ st ∈ pre, st.2 = .ok ()) → step.2 = .error e →
      Core.start env c =
        ({ c with log := c.log ++ (pre ++ [step]).map Prod.fst }, .rejected e) := by
    intro h pre step post e hsplit hpre hstep
    rw [start_eq_runChain env c h, hsplit, runChain_first_failure pre post step c.log e hpre hstep]
  refine ⟨rfl, hnocred, hall, hfail, ?_⟩
  intro added hadded
  by_cases hcred : env.hasCredentials = true
  · rcases chain_cases (startChain env) with hok | ⟨pre, step, post, e, hsplit, hpre, hstep⟩
    · rw [hall hcred hok] at hadded ⊢
      have hadd : added = (startChain env).map Prod.fst ++ [.transitTo .STARTED] := by
        apply List.append_cancel_left
        rw [← hadded, List.append_assoc]
      rw [hadd]
      exact ⟨⟨fun _ => ⟨hcred, hok⟩, fun _ => (by simp)⟩, ⟨fun _ => ⟨hcred, hok⟩, fun _ => rfl⟩⟩
    · rw [hfail hcred pre step post e hsplit hpre hstep] at hadded ⊢
      have hadd : added = (pre ++ [step]).map Prod.fst := by
        apply List.append_cancel_left
        rw [← hadded]
      have hnot : ¬ ∀ st ∈ startChain env, st.2 = .ok () := by
        intro hok
        have := hok step (by rw [hsplit]; simp)
        rw [hstep] at this
        cases this
      rw [hadd]
      refine ⟨⟨fun hmem => absurd hmem (startChain_no_transit env pre post step hsplit _),
        fun h => absurd h.2 hnot⟩, ⟨fun h => (by cases h), fun h => absurd h.2 hnot⟩⟩
  · have hfalse : env.hasCredentials = false := by simpa using hcred
    rw [hnocred hfalse] at hadded ⊢
    have hadd : added = [] := by
      apply List.append_cancel_left
      rw [← hadded, List.append_nil]
    rw [hadd]
    exact ⟨⟨fun h => absurd h (List.not_mem_nil _), fun h => absurd h.1 hcred⟩,
      ⟨fun h => (by cases h), fun h => absurd h.1 hcred⟩⟩

/-- C14 (witness): with credentials and every module starting, `start()` goes
through to `STARTED`; when the XMPP service fails to start, the five first
modules were started, nothing after, and the state is still `INIT`. -/
theorem start_all_or_nothing_witness :
    Core.start (okEnv false) Core.init =
      (⟨.STARTED,
        [.start .stateManager, .start .http, .start .cpaas, .start .rest, .start .xmpp,
         .start .im, .start .presence, .start .contacts, .start .bubbles, .start .admin,
         .start .fileServer, .transitTo .STARTED], []⟩, .resolved ()) ∧
    Core.start { okEnv false with xmppStart := fun _ => .error "no route" } Core.init =
      (⟨.INIT,
        [.start .stateManager, .start .http, .start .cpaas, .start .rest, .start .xmpp], []⟩,
        .rejected "no route") :=
  ⟨(start_all_or_nothing (okEnv false) Core.init).2.2.1 rfl
      (by simp [startChain, okEnv, discard]),
   (start_all_or_nothing { okEnv false with xmppStart := fun _ => .error "no route" }
      Core.init).2.2.2.1 rfl
      [(.start .stateManager, .ok ()), (.start .http, .ok ()), (.start .cpaas, .ok ()),
       (.start .rest, .ok ())]
      (.start .xmpp, .error "no route")
      [(.start .im, .ok ()), (.start .presence, .ok ()), (.start .contacts, .ok ()),
       (.start .bubbles, .ok ()), (.start .admin, .ok ()), (.start .fileServer, .ok ())]
      "no route" rfl (by simp) rfl⟩

/-- No step of the re-synchronization is a state transition. -/
theorem resyncChain_no_transit (env : CoreEnv) (pre post : List (CoreEvent × Except String Unit))
    (step : CoreEvent × Except String Unit) (h : resyncChain env = pre ++ step :: post)
    (state : SessionState) : CoreEvent.transitTo state ∉ (pre ++ [step]).map Prod.fst := by
  intro hmem
  have hsub : CoreEvent.transitTo state ∈ (resyncChain env).map Prod.fst := by
    rw [h]
    simp only [List.map_append, List.map_cons, List.map_nil, List.mem_append, List.mem_cons,
      List.mem_singleton, List.mem_map] at hmem ⊢
    rcases hmem with hmem | hmem
    · exact Or.inl hmem
    · rcases hmem with hmem | hmem
      · exact Or.inr (Or.inl hmem)
      · exact absurd hmem (List.not_mem_nil _)
  simp [resyncChain] at hsub

/-- Stopping the XMPP service is not a state transition. -/
theorem stopEvents_no_transit (forceStopXMPP : Bool) (state : SessionState) :
    CoreEvent.transitTo state ∉ stopEvents forceStopXMPP := by
  cases forceStopXMPP <;> simp [stopEvents]

/-- C15 (counterexample): in CLI mode, with both sign-ins succeeding, `signin`
makes the transition to `READY` right after `CONNECTED` although no
re-synchronization step was run, and it resolves with `undefined`, not with the
answer `account` of the authentication. -/
theorem signin_cli_mode_ready_without_resync :
    (okEnv true).restSignin = .ok "account" ∧
    Core.signin (okEnv true) Core.init false =
      (⟨.READY, [.restSignin, .xmppSignin, .transitTo .CONNECTED, .transitTo .READY], []⟩,
        .resolved none) := by
  constructor
  · rfl
  · decide

/-- C15 (amended): in every run of `signin`: if the REST or the XMPP sign-in
fails, `signin` rejects with that error and makes no transition.  When both
succeed outside CLI mode, the transition to `CONNECTED` comes after both
sign-ins and before every re-synchronization step; if every step of the
re-synchronization succeeds the transition to `READY` follows the last of them
and `signin` resolves with the answer of the REST sign-in; if a step fails,
`signin` rejects with its error, nothing later is run, `READY` is not signalled
and the state stays `CONNECTED`.  In CLI mode no re-synchronization is run and
the transition to `READY` follows `CONNECTED` directly.  So `CONNECTED` is
signalled exactly when both sign-ins succeeded, and `READY` exactly when in
addition the run is in CLI mode or the whole re-synchronization succeeded. -/
theorem signin_transitions (env : CoreEnv) (c : Core) (forceStopXMPP : Bool) :
    (∀ e, env.restSignin = .error e →
      Core.signin env c forceStopXMPP =
        ({ c with log := c.log ++ stopEvents forceStopXMPP ++ [.restSignin] }, .rejected e)) ∧
    (∀ json e, env.restSignin = .ok json → env.xmppSignin = .error e →
      Core.signin env c forceStopXMPP =
        ({ c with log := c.log ++ stopEvents forceStopXMPP ++ [.restSignin, .xmppSignin] },
          .rejected e)) ∧
    (∀ json, env.restSignin = .ok json → env.xmppSignin = .ok () → env.useCLIMode = false →
      (∀ step ∈ resyncChain env, step.2 = .ok ()) →
      (Core.signin env c forceStopXMPP).1.state = .READY ∧
      (Core.signin env c forceStopXMPP).1.log =
        c.log ++ stopEvents forceStopXMPP ++ connectedEvents ++ (resyncChain env).map Prod.fst
          ++ [.transitTo .READY] ∧
      (Core.signin env c forceStopXMPP).2 = .resolved (some json)) ∧
    (∀ json pre step post e, env.restSignin = .ok json → env.xmppSignin = .ok () →
      env.useCLIMode = false → resyncChain env = pre ++ step :: post →
      (∀ st ∈ pre, st.2 = .ok ()) → step.2 = .error e →
      Core.signin env c forceStopXMPP =
        ({ c with state := .CONNECTED,
                  log := c.log ++ stopEvents forceStopXMPP ++ connectedEvents ++
                    (pre ++ [step]).map Prod.fst }, .rejected e)) ∧
    (∀ json, env.restSignin = .ok json → env.xmppSignin = .ok () → env.useCLIMode = true →
      (Core.signin env c forceStopXMPP).1 =
        { c with state := .READY,
                 log := c.log ++ stopEvents forceStopXMPP ++
                   [.restSignin, .xmppSignin, .transitTo .CONNECTED, .transitTo .READY] }) ∧
    (∀ added, (Core.signin env c forceStopXMPP).1.log = c.log ++ added →
      (CoreEvent.transitTo .CONNECTED ∈ added ↔
        (∃ json, env.restSignin = .ok json) ∧ env.xmppSignin = .ok ()) ∧
      (CoreEvent.transitTo .READY ∈ added ↔
        ((∃ json, env.restSignin = .ok json) ∧ env.xmppSignin = .ok ()) ∧
          (env.useCLIMode = true ∨ ∀ step ∈ resyncChain env, step.2 = .ok ()))) := by
  have hrestfail : ∀ e, env.restSignin = .error e →
      Core.signin env c forceStopXMPP =
        ({ c with log := c.log ++ stopEvents forceStopXMPP ++ [.restSignin] }, .rejected e) := by
    intro e h
    rw [signin_eq, h]
  have hxmppfail : ∀ json e, env.restSignin = .ok json → env.xmppSignin = .error e →
      Core.signin env c forceStopXMPP =
        ({ c with log := c.log ++ stopEvents forceStopXMPP ++ [.restSignin, .xmppSignin] },
          .rejected e) := by
    intro json e h1 h2
    rw [signin_eq, h1, h2]
  have hok : ∀ json, env.restSignin = .ok json → env.xmppSignin = .ok () →
      env.useCLIMode = false → (∀ step ∈ resyncChain env, step.2 = .ok ()) →
      (Core.signin env c forceStopXMPP).1.state = .READY ∧
      (Core.signin env c forceStopXMPP).1.log =
        c.log ++ stopEvents forceStopXMPP ++ connectedEvents ++ (resyncChain env).map Prod.fst
          ++ [.transitTo .READY] ∧
      (Core.signin env c forceStopXMPP).2 = .resolved (some json) := by
    intro json h1 h2 h3 hall
    rw [signin_eq, h1, h2, h3, runChain_all_ok _ _ hall]
    exact ⟨rfl, rfl, rfl⟩
  have hresyncfail : ∀ json pre step post e, env.restSignin = .ok json →
      env.xmppSignin = .ok () → env.useCLIMode = false → resyncChain env = pre ++ step :: post →
      (∀ st ∈ pre, st.2 = .ok ()) → step.2 = .error e →
      Core.signin env c forceStopXMPP =
        ({ c with state := .CONNECTED,
                  log := c.log ++ stopEvents forceStopXMPP ++ connectedEvents ++
                    (pre ++ [step]).map Prod.fst }, .rejected e) := by
    intro json pre step post e h1 h2 h3 hsplit hpre hstep
    rw [signin_eq, h1, h2, h3, hsplit, runChain_first_failure pre post step _ e hpre hstep]
    rfl
  have hcli : ∀ json, env.restSignin = .ok json → env.xmppSignin = .ok () →
      env.useCLIMode = true →
      (Core.signin env c forceStopXMPP).1 =
        { c with state := .READY,
                 log := c.log ++ stopEvents forceStopXMPP ++
                   [.restSignin, .xmppSignin, .transitTo .CONNECTED, .transitTo .READY] } := by
    intro json h1 h2 h3
    rw [signin_eq, h1, h2, h3]
    rfl
  refine ⟨hrestfail, hxmppfail, hok, hresyncfail, hcli, ?_⟩
  intro added hadded
  have hstop := stopEvents_no_transit forceStopXMPP
  cases hrest : env.restSignin with
  | error e =>
    rw [hrestfail e hrest] at hadded
    have hadd : added = stopEvents forceStopXMPP ++ [.restSignin] :=
      List.append_cancel_left (hadded.symm.trans (List.append_assoc _ _ _))
    rw [hadd]
    simp [hstop]
  | ok json =>
    cases hxmpp : env.xmppSignin with
    | error e =>
      rw [hxmppfail json e hrest hxmpp] at hadded
      have hadd : added = stopEvents forceStopXMPP ++ [.restSignin, .xmppSignin] :=
        List.append_cancel_left (hadded.symm.trans (List.append_assoc _ _ _))
      rw [hadd]
      simp [hstop]
    | ok v =>
      cases hmode : env.useCLIMode with
      | true =>
        rw [hcli json hrest hxmpp hmode] at hadded
        have hadd : added = stopEvents forceStopXMPP ++
            [.restSignin, .xmppSignin, .transitTo .CONNECTED, .transitTo .READY] :=
          List.append_cancel_left (hadded.symm.trans (List.append_assoc _ _ _))
        rw [hadd]
        simp
      | false =>
        rcases chain_cases (resyncChain env) with hall | ⟨pre, step, post, e, hsplit, hpre, hstep⟩
        · rw [(hok json hrest hxmpp hmode hall).2.1] at hadded
          have hadd : added = stopEvents forceStopXMPP ++ connectedEvents ++
              (resyncChain env).map Prod.fst ++ [.transitTo .READY] := by
            apply List.append_cancel_left
            rw [← hadded]
            simp only [List.append_assoc]
          rw [hadd]
          refine ⟨⟨fun _ => ⟨⟨json, rfl⟩, rfl⟩, fun _ => (by simp [connectedEvents])⟩,
            ⟨fun _ => ⟨⟨⟨json, rfl⟩, rfl⟩, Or.inr hall⟩, fun _ => (by simp)⟩⟩
        · rw [hresyncfail json pre step post e hrest hxmpp hmode hsplit hpre hstep] at hadded
          have hadd : added = stopEvents forceStopXMPP ++ connectedEvents ++
              (pre ++ [step]).map Prod.fst := by
            apply List.append_cancel_left
            rw [← hadded]
            simp only [List.append_assoc]
          have hnot : ¬ ∀ st ∈ resyncChain env, st.2 = .ok () := by
            intro hall
            have := hall step (by rw [hsplit]; simp)
            rw [hstep] at this
            cases this
          have hnoready : CoreEvent.transitTo .READY ∉ added := by
            rw [hadd]
            intro hmem
            rcases List.mem_append.1 hmem with hmem | hmem
            · rcases List.mem_append.1 hmem with hmem | hmem
              · exact hstop _ hmem
              · simp [connectedEvents] at hmem
            · exact resyncChain_no_transit env pre post step hsplit _ hmem
          refine ⟨⟨fun _ => ⟨⟨json, rfl⟩, rfl⟩, fun _ => ?_⟩,
            ⟨fun hmem => absurd hmem hnoready, fun h => ?_⟩⟩
          · rw [hadd]
            simp [connectedEvents]
          · rcases h.2 with h | h
            · cases h
            · exact absurd h hnot

/-- C15 (witness): outside CLI mode, with every collaborator succeeding, a
forced `signin` stops XMPP, signs in twice, starts the token survey, signals
`CONNECTED`, runs the five re-synchronization steps, signals `READY` and
resolves with the answer of the REST sign-in. -/
theorem signin_transitions_witness :
    (Core.signin (okEnv false) Core.init true).1.log =
      [.xmppStop, .restSignin, .xmppSignin, .onTokenRenewed, .onTokenExpired, .startTokenSurvey,
       .transitTo .CONNECTED, .getRosters, .getBubbles, .sendInitialPresence, .enableCarbon,
       .getBots, .transitTo .READY] ∧
    (Core.signin (okEnv false) Core.init true).2 = .resolved (some "account") :=
  ⟨((signin_transitions (okEnv false) Core.init true).2.2.1 "account" rfl rfl rfl
      (by simp [resyncChain, okEnv, discard])).2.1.trans (by decide),
   ((signin_transitions (okEnv false) Core.init true).2.2.1 "account" rfl rfl rfl
      (by simp [resyncChain, okEnv, discard])).2.2⟩

/-- C21 (failing input): the local array is empty.  `createBubble("Team",
"desc")` succeeds remotely with room `r1` and waits for the presence event;
meanwhile the own-affiliation event for `r1` is handled, and the handler, not
finding `r1`, pushes the fetched room; then the presence event fires and the
listener of `createBubble` pushes `r1` again.  The ids were distinct before
and after each of the first two steps; at the end the array holds two rooms
with id `r1`. -/
theorem createBubble_then_event_duplicates_room :
    DistinctIds Bubbles.init ∧
    DistinctIds
      (createBubble (constRest "me" createdRoom) Bubbles.init (some "Team") (some "desc") none).1 ∧
    DistinctIds
      (_onOwnAffiliationChanged (constRest "me" createdRoom)
        (createBubble (constRest "me" createdRoom) Bubbles.init (some "Team") (some "desc") none).1
        ⟨"r1", "accepted"⟩) ∧
    (emitBubblePresenceChanged
      (_onOwnAffiliationChanged (constRest "me" createdRoom)
        (createBubble (constRest "me" createdRoom) Bubbles.init (some "Team") (some "desc") none).1
        ⟨"r1", "accepted"⟩)).1.bubbles = [createdRoom, createdRoom] ∧
    ¬ DistinctIds
      (emitBubblePresenceChanged
        (_onOwnAffiliationChanged (constRest "me" createdRoom)
          (createBubble (constRest "me" createdRoom) Bubbles.init (some "Team") (some "desc")
            none).1
          ⟨"r1", "accepted"⟩)).1 := by
  unfold DistinctIds
  refine ⟨?_, ?_, ?_, ?_, ?_⟩ <;> decide

/-- C22: when the re-fetch of `_onOwnAffiliationChanged` succeeds with
snapshot `snap`: if the event's status is `accepted`, or no room of the local
array carries the snapshot's id, exactly one initial presence is sent, to
`snap.jid`, between the re-fetch and the details event; if the status is
anything else and the room was already in the local array, none is sent. -/
theorem ownAffiliationChanged_presence (rest : Rest) (s : Bubbles) (affiliation : Affiliation)
    (snap : Bubble) (hget : rest.getBubble s.calls affiliation.bubbleId = .ok snap) :
    ((affiliation.status = "accepted" ∨ ∀ x ∈ s.bubbles, x.id ≠ snap.id) →
      (_onOwnAffiliationChanged rest s affiliation).calls = s.calls ++
        [.restGetBubble affiliation.bubbleId,
         .xmppSendInitialBubblePresence snap.jid,
         .eventEmitterEmit "rainbow_ownaffiliationdetailschanged" snap]) ∧
    (affiliation.status ≠ "accepted" → (∃ x ∈ s.bubbles, x.id = snap.id) →
      (_onOwnAffiliationChanged rest s affiliation).calls = s.calls ++
        [.restGetBubble affiliation.bubbleId,
         .eventEmitterEmit "rainbow_ownaffiliationdetailschanged" snap]) := by
  have hknown : findIndex (fun bubbleItem : Bubble => bubbleItem.id == snap.id) s.bubbles > -1 ↔
      ∃ x ∈ s.bubbles, x.id = snap.id := by
    have hneg := findIndex_neg_iff (fun bubbleItem : Bubble => bubbleItem.id == snap.id) s.bubbles
    constructor
    · intro hgt
      by_contra hno
      have hall : ∀ x ∈ s.bubbles, (fun bubbleItem : Bubble => bubbleItem.id == snap.id) x = false := by
        intro x hx
        have : ¬ x.id = snap.id := fun h => hno ⟨x, hx, h⟩
        simpa using this
      have := hneg.2 hall
      omega
    · rintro ⟨x, hx, hid⟩
      by_contra hgt
      have hlt : findIndex (fun bubbleItem : Bubble => bubbleItem.id == snap.id) s.bubbles < 0 := by
        have := findIndex_neg_iff (fun bubbleItem : Bubble => bubbleItem.id == snap.id) s.bubbles
        omega
      have := hneg.1 hlt x hx
      simp [hid] at this
  refine ⟨?_, ?_⟩
  · intro h
    simp only [_onOwnAffiliationChanged, hget, Bubbles.record]
    split
    · rename_i hgt
      rcases h with h | h
      · simp [h]
      · obtain ⟨x, hx, hid⟩ := hknown.1 hgt
        exact absurd hid (h x hx)
    · simp
  · intro hstatus hex
    simp only [_onOwnAffiliationChanged, hget, Bubbles.record]
    rw [if_pos (hknown.2 hex)]
    simp [hstatus]

/-- C22 (witness): the room `r1` is known and the event says `accepted`: one
presence to the fetched room's jid; the same event with status `unsubscribed`
sends none. -/
theorem ownAffiliationChanged_presence_witness :
    (_onOwnAffiliationChanged (constRest "me" openRoom) ⟨[closedRoom], [], []⟩
        ⟨"r1", "accepted"⟩).calls =
      [.restGetBubble "r1", .xmppSendInitialBubblePresence "r1@muc",
       .eventEmitterEmit "rainbow_ownaffiliationdetailschanged" openRoom] ∧
    (_onOwnAffiliationChanged (constRest "me" openRoom) ⟨[closedRoom], [], []⟩
        ⟨"r1", "unsubscribed"⟩).calls =
      [.restGetBubble "r1", .eventEmitterEmit "rainbow_ownaffiliationdetailschanged" openRoom] :=
  ⟨((ownAffiliationChanged_presence (constRest "me" openRoom) ⟨[closedRoom], [], []⟩
      ⟨"r1", "accepted"⟩ openRoom rfl).1 (Or.inl rfl)).trans (by decide),
   ((ownAffiliationChanged_presence (constRest "me" openRoom) ⟨[closedRoom], [], []⟩
      ⟨"r1", "unsubscribed"⟩ openRoom rfl).2 (by decide) ⟨closedRoom, by simp, rfl⟩).trans
      (by decide)⟩

/-- The listener of `rainbow_xmppreconnected` case by case: the reconnect
fails, or the re-synchronization chain decides. -/
theorem reconnected_eq (env : CoreEnv) (c : Core) :
    Core.rainbow_xmppreconnected env c =
      match env.restReconnect with
      | .error _ =>
        { c with state := .FAILED, log := c.log ++ [.restReconnect, .transitTo .FAILED] }
      | .ok _ =>
        match runChain (resyncChain env) (c.log ++ [.restReconnect, .transitTo .CONNECTED]) with
        | (log, none) =>
          { state := .READY, log := log ++ [.transitTo .READY],
            botsjid := match env.getBots with
              | .ok bots => bots.getD []
              | .error _ => c.botsjid }
        | (log, some _) => { c with state := .FAILED, log := log ++ [.transitTo .FAILED] } := by
  unfold Core.rainbow_xmppreconnected
  cases hrec : env.restReconnect with
  | error e => simp [Core.record, Core.transitTo]
  | ok v =>
    simp only [retrieveInformation_eq_runChain]
    have hc : (c.record .restReconnect).transitTo .CONNECTED
        = { state := .CONNECTED, log := c.log ++ [.restReconnect, .transitTo .CONNECTED],
            botsjid := c.botsjid } := by
      simp [Core.record, Core.transitTo]
    rw [hc]
    generalize runChain (resyncChain env) (c.log ++ [.restReconnect, .transitTo .CONNECTED]) = run
    rcases run with ⟨log, _ | e⟩ <;> simp [Core.transitTo]

/-- The events of a chain cut at one of its steps are events of the chain. -/
theorem chain_events_mem (steps pre post : List (CoreEvent × Except String Unit))
    (step : CoreEvent × Except String Unit) (h : steps = pre ++ step :: post) (event : CoreEvent)
    (hmem : event ∈ (pre ++ [step]).map Prod.fst) : event ∈ steps.map Prod.fst := by
  rw [h]
  simp only [List.map_append, List.map_cons, List.map_nil, List.mem_append, List.mem_cons,
    List.mem_singleton, List.mem_map] at hmem ⊢
  rcases hmem with hmem | hmem
  · exact Or.inl hmem
  · rcases hmem with hmem | hmem
    · exact Or.inr (Or.inl hmem)
    · exact absurd hmem (List.not_mem_nil _)

/-- C23: on the reconnected event no module is started.  The REST reconnect is
called first; if it fails nothing else is called and the state becomes
`FAILED`; if it succeeds the state becomes `CONNECTED` and the
re-synchronization is run: when every step succeeds the state ends `READY`,
when a step fails nothing after it is run and the state ends `FAILED`.  So the
attempt ends `READY` exactly when the reconnect and the whole
re-synchronization succeeded, and `FAILED` exactly when one of them failed.
The disconnect event sets `DISCONNECTED`, the reconnect-attempt event sets
`RECONNECTING`, and a disconnect, a reconnect attempt and a reconnected event
whose reconnect and re-synchronization succeed end in `READY`. -/
theorem reconnect_outcome (env : CoreEnv) (c : Core) :
    (∀ e, env.restReconnect = .error e →
      Core.rainbow_xmppreconnected env c =
        { c with state := .FAILED, log := c.log ++ [.restReconnect, .transitTo .FAILED] }) ∧
    (env.restReconnect = .ok () → (∀ step ∈ resyncChain env, step.2 = .ok ()) →
      (Core.rainbow_xmppreconnected env c).state = .READY ∧
      (Core.rainbow_xmppreconnected env c).log =
        c.log ++ [.restReconnect, .transitTo .CONNECTED] ++ (resyncChain env).map Prod.fst
          ++ [.transitTo .READY]) ∧
    (env.restReconnect = .ok () → ∀ pre step post e, resyncChain env = pre ++ step :: post →
      (∀ st ∈ pre, st.2 = .ok ()) → step.2 = .error e →
      Core.rainbow_xmppreconnected env c =
        { c with state := .FAILED,
                 log := c.log ++ [.restReconnect, .transitTo .CONNECTED] ++
                   (pre ++ [step]).map Prod.fst ++ [.transitTo .FAILED] }) ∧
    ((Core.rainbow_xmppreconnected env c).state = .READY ↔
      env.restReconnect = .ok () ∧ ∀ step ∈ resyncChain env, step.2 = .ok ()) ∧
    ((Core.rainbow_xmppreconnected env c).state = .FAILED ↔
      ¬ (env.restReconnect = .ok () ∧ ∀ step ∈ resyncChain env, step.2 = .ok ())) ∧
    (∀ added, (Core.rainbow_xmppreconnected env c).log = c.log ++ added →
      ∀ module, CoreEvent.start module ∉ added) ∧
    (Core.rainbow_xmppdisconnect c).state = .DISCONNECTED ∧
    (Core.rainbow_xmppreconnectingattempt c).state = .RECONNECTING ∧
    (c.state = .READY → env.restReconnect = .ok () →
      (∀ step ∈ resyncChain env, step.2 = .ok ()) →
      (Core.rainbow_xmppreconnected env
        (Core.rainbow_xmppreconnectingattempt (Core.rainbow_xmppdisconnect c))).state = .READY) := by
  have hfail : ∀ (c : Core) e, env.restReconnect = .error e →
      Core.rainbow_xmppreconnected env c =
        { c with state := .FAILED, log := c.log ++ [.restReconnect, .transitTo .FAILED] } := by
    intro c e h
    rw [reconnected_eq, h]
  have hok : ∀ c : Core, env.restReconnect = .ok () →
      (∀ step ∈ resyncChain env, step.2 = .ok ()) →
      (Core.rainbow_xmppreconnected env c).state = .READY ∧
      (Core.rainbow_xmppreconnected env c).log =
        c.log ++ [.restReconnect, .transitTo .CONNECTED] ++ (resyncChain env).map Prod.fst
          ++ [.transitTo .READY] := by
    intro c h hall
    rw [reconnected_eq, h, runChain_all_ok _ _ hall]
    exact ⟨rfl, rfl⟩
  have hresync : ∀ c : Core, env.restReconnect = .ok () → ∀ pre step post e,
      resyncChain env = pre ++ step :: post → (∀ st ∈ pre, st.2 = .ok ()) → step.2 = .error e →
      Core.rainbow_xmppreconnected env c =
        { c with state := .FAILED,
                 log := c.log ++ [.restReconnect, .transitTo .CONNECTED] ++
                   (pre ++ [step]).map Prod.fst ++ [.transitTo .FAILED] } := by
    intro c h pre step post e hsplit hpre hstep
    rw [reconnected_eq, h, hsplit, runChain_first_failure pre post step _ e hpre hstep]
  have hunit : ∀ v : Unit, (Except.ok v : Except String Unit) = .ok () := fun _ => rfl
  refine ⟨hfail c, hok c, hresync c, ?_, ?_, ?_, rfl, rfl, ?_⟩
  · cases hrec : env.restReconnect with
    | error e =>
      rw [hfail c e hrec]
      simp
    | ok v =>
      rcases chain_cases (resyncChain env) with hall | ⟨pre, step, post, e, hsplit, hpre, hstep⟩
      · rw [(hok c hrec hall).1]
        exact ⟨fun _ => ⟨rfl, hall⟩, fun _ => rfl⟩
      · rw [hresync c hrec pre step post e hsplit hpre hstep]
        refine ⟨fun h => (by cases h), fun h => ?_⟩
        have := h.2 step (by rw [hsplit]; simp)
        rw [hstep] at this
        cases this
  · cases hrec : env.restReconnect with
    | error e =>
      rw [hfail c e hrec]
      simp
    | ok v =>
      rcases chain_cases (resyncChain env) with hall | ⟨pre, step, post, e, hsplit, hpre, hstep⟩
      · rw [(hok c hrec hall).1]
        exact ⟨fun h => (by cases h), fun h => absurd ⟨rfl, hall⟩ h⟩
      · rw [hresync c hrec pre step post e hsplit hpre hstep]
        refine ⟨fun _ h => ?_, fun _ => rfl⟩
        have := h.2 step (by rw [hsplit]; simp)
        rw [hstep] at this
        cases this
  · intro added hadded module hmem
    cases hrec : env.restReconnect with
    | error e =>
      rw [hfail c e hrec] at hadded
      have hadd : added = [.restReconnect, .transitTo .FAILED] :=
        List.append_cancel_left hadded.symm
      rw [hadd] at hmem
      simp at hmem
    | ok v =>
      rcases chain_cases (resyncChain env) with hall | ⟨pre, step, post, e, hsplit, hpre, hstep⟩
      · rw [(hok c hrec hall).2] at hadded
        have hadd : added = [.restReconnect, .transitTo .CONNECTED] ++
            (resyncChain env).map Prod.fst ++ [.transitTo .READY] := by
          apply List.append_cancel_left
          rw [← hadded]
          simp only [List.append_assoc]
        rw [hadd] at hmem
        simp [resyncChain] at hmem
      · rw [hresync c hrec pre step post e hsplit hpre hstep] at hadded
        have hadd : added = [.restReconnect, .transitTo .CONNECTED] ++
            (pre ++ [step]).map Prod.fst ++ [.transitTo .FAILED] := by
          apply List.append_cancel_left
          rw [← hadded]
          simp only [List.append_assoc]
        rw [hadd] at hmem
        rcases List.mem_append.1 hmem with hmem | hmem
        · rcases List.mem_append.1 hmem with hmem | hmem
          · simp at hmem
          · have := chain_events_mem (resyncChain env) pre post step hsplit _ hmem
            simp [resyncChain] at this
        · simp at hmem
  · intro _ hrec hall
    exact (hok _ hrec hall).1

/-- C23 (witness): from `READY`, a disconnect, a reconnect attempt and a
reconnected event with every collaborator succeeding: the state goes through
`DISCONNECTED`, `RECONNECTING`, `CONNECTED` and ends `READY`; when the REST
reconnect fails the attempt ends `FAILED` without any re-synchronization. -/
theorem reconnect_outcome_witness :
    (Core.rainbow_xmppreconnected (okEnv false)
      (Core.rainbow_xmppreconnectingattempt (Core.rainbow_xmppdisconnect ⟨.READY, [], []⟩))).state
      = .READY ∧
    Core.rainbow_xmppreconnected { okEnv false with restReconnect := .error "offline" }
        ⟨.RECONNECTING, [], []⟩
      = ⟨.FAILED, [.restReconnect, .transitTo .FAILED], []⟩ :=
  ⟨(reconnect_outcome (okEnv false) ⟨.READY, [], []⟩).2.2.2.2.2.2.2.2 rfl rfl
      (by simp [resyncChain, okEnv, discard]),
   (reconnect_outcome { okEnv false with restReconnect := .error "offline" }
      ⟨.RECONNECTING, [], []⟩).1 "offline" rfl⟩

/-- An upsert keeps the ids of the local rooms distinct. -/
theorem Upserted.distinct {before after : List Bubble} {snap : Bubble}
    (h : Upserted before snap after) (hd : (before.map Bubble.id).Nodup) :
    (after.map Bubble.id).Nodup := by
  obtain ⟨hknown, hunknown, -⟩ := h
  by_cases hex : ∃ x ∈ before, x.id = snap.id
  · obtain ⟨pre, old, post, hsplit, hold, -, hafter, -⟩ := hknown hex
    rw [hafter]
    rw [hsplit] at hd
    simpa [hold] using hd
  · have hall : ∀ x ∈ before, x.id ≠ snap.id := fun x hx hid => hex ⟨x, hx, hid⟩
    rw [(hunknown hall).1, List.map_append, List.nodup_append]
    refine ⟨hd, by simp, ?_⟩
    intro a ha hb
    rw [List.mem_map] at ha
    obtain ⟨x, hx, rfl⟩ := ha
    simp only [List.map_cons, List.map_nil, List.mem_singleton] at hb
    exact hall x hx hb

/-- Removing elements with `splice` leaves a sublist. -/
theorem splice_sublist {α : Type} (arr : List α) (start : Int) (deleteCount : Nat) :
    (splice arr start deleteCount).Sublist arr := by
  have hcut : ∀ actualStart : Nat,
      (arr.take actualStart ++ arr.drop (actualStart + deleteCount)).Sublist arr := by
    intro actualStart
    have hdrop : (arr.drop (actualStart + deleteCount)).Sublist (arr.drop actualStart) := by
      rw [← List.drop_drop]
      exact List.drop_sublist _ _
    have := (List.Sublist.refl (arr.take actualStart)).append hdrop
    rwa [List.take_append_drop] at this
  exact hcut _

/-- Apart from the listener of `createBubble`, the operations and the event
handlers keep the ids of the local rooms distinct. -/
theorem distinct_ids_preserved (rest : Rest) (s : Bubbles) (hd : DistinctIds s) :
    (∀ (contact : Contact) (bubble : Bubble),
      DistinctIds (removeContactFromBubble rest s (some contact) (some bubble)).1) ∧
    (∀ bubble : Bubble, DistinctIds (closeBubble rest s (some bubble)).1) ∧
    (∀ bubble : Bubble, DistinctIds (deleteBubble rest s (some bubble)).1) ∧
    (∀ invitation, DistinctIds (_onInvitationReceived rest s invitation)) ∧
    (∀ affiliation, DistinctIds (_onAffiliationChanged rest s affiliation)) ∧
    (∀ affiliation, DistinctIds (_onOwnAffiliationChanged rest s affiliation)) := by
  unfold DistinctIds at hd ⊢
  refine ⟨?_, ?_, ?_, ?_, ?_, ?_⟩
  · intro contact bubble
    rw [(removeContactFromBubble_preserves rest s contact bubble).2.1]
    exact hd
  · intro bubble
    rw [(closeBubble_preserves rest s bubble).2.1]
    exact hd
  · intro bubble
    have hclose := (closeBubble_preserves rest s bubble).2.1
    rcases hrun : closeBubble rest s (some bubble) with ⟨s1, outcome⟩
    rw [hrun] at hclose
    have hd1 : (s1.bubbles.map Bubble.id).Nodup := by rw [hclose]; exact hd
    simp only [deleteBubble, hrun]
    cases outcome with
    | rejected err => exact hd1
    | pending => exact hd1
    | resolved updatedBubble =>
      dsimp only
      cases rest.deleteBubble s1.calls updatedBubble.id with
      | error err => exact hd1
      | ok v => exact hd1.sublist ((splice_sublist _ _ _).map _)
  · intro invitation
    cases hget : rest.getBubble s.calls invitation.bubbleId with
    | error err =>
      simp only [_onInvitationReceived, hget]
      exact hd
    | ok snap => exact ((handlers_keep rest s snap).1 invitation hget).distinct hd
  · intro affiliation
    cases hget : rest.getBubble s.calls affiliation.bubbleId with
    | error err =>
      simp only [_onAffiliationChanged, hget]
      exact hd
    | ok snap => exact ((handlers_keep rest s snap).2.1 affiliation hget).distinct hd
  · intro affiliation
    cases hget : rest.getBubble s.calls affiliation.bubbleId with
    | error err =>
      simp only [_onOwnAffiliationChanged, hget]
      exact hd
    | ok snap => exact ((handlers_keep rest s snap).2.2 affiliation hget).distinct hd

end Rainbow
